/-
Verification of the VPC-Chronology restore orchestrator (src/vpchron.py).

The restore path of `vpchron.py` is shallowly embedded as pure Lean
functions.  AWS (EC2 and S3) is modelled as an oracle: an EC2 api is a
function from the index of the call (the n-th API call made by the run)
and the call's arguments to a result (`ok id` or a `ClientError` with a
message), and an S3 api answers the two read operations used by the
restore path.  Every restore function threads an explicit state
(`St`: the call counter and the `created_resources` table of
`VpcRestore.__init__`) and returns the list of observable events it
produced: API calls (with their results) and log lines, in order.

Python dicts that hold captured AWS objects are embedded as structures
whose fields are `Option`s (a `none` field is an absent key), and
Python truthiness of strings ("" and absent are falsy) is modelled
explicitly.  The `created_resources` sub-tables are insertion-ordered
association lists with Python-dict update semantics (`dictInsert`).
-/
import Mathlib

namespace VpcChron

/-- A captured AWS tag (`{'Key': ..., 'Value': ...}`). -/
structure Tag where
  key : String
  value : String
deriving DecidableEq, Repr

/-- Python truthiness of an optional string: absent keys and `""` are falsy. -/
def optTruthy : Option String → Bool
  | none => false
  | some s => !(s == "")

/-- Python `str()` of an optional string: `None` prints as `"None"`. -/
def pyShow : Option String → String
  | none => "None"
  | some s => s

/-- Python substring test `needle in hay`. -/
def strContains (hay needle : String) : Bool :=
  decide (needle.toList <:+: hay.toList)

/-- Python-dict update `d[k] = v` on an insertion-ordered association list:
an existing key keeps its position, a new key goes to the back. -/
def dictInsert {κ α : Type} [DecidableEq κ] : List (κ × α) → κ → α → List (κ × α)
  | [], k, v => [(k, v)]
  | (k0, v0) :: rest, k, v =>
    if k0 = k then (k, v) :: rest else (k0, v0) :: dictInsert rest k v

/-- Python-dict read `d.get(k)` / membership `k in d`. -/
def dictLookup {κ α : Type} [DecidableEq κ] : List (κ × α) → κ → Option α
  | [], _ => none
  | (k0, v0) :: rest, k => if k0 = k then some v0 else dictLookup rest k

/-! ## Security-group rule model and `_clean_sg_rule` -/

/-- One element of a captured rule's `IpRanges` list. -/
structure IpRange where
  cidrIp : Option String
  description : Option String
deriving DecidableEq, Repr

/-- One element of a captured rule's `Ipv6Ranges` list. -/
structure Ipv6Range where
  cidrIpv6 : Option String
  description : Option String
deriving DecidableEq, Repr

/-- A captured security-group rule (`IpPermissions[i]`).  Only the keys read
by `_clean_sg_rule` are modelled. -/
structure SgRule where
  ipProtocol : Option String
  fromPort : Option Int
  toPort : Option Int
  ipRanges : Option (List IpRange)
  ipv6Ranges : Option (List Ipv6Range)
deriving DecidableEq, Repr

/-- An IPv4 range of a cleaned rule: `CidrIp` is always present. -/
structure CleanIpRange where
  cidrIp : String
  description : Option String
deriving DecidableEq, Repr

/-- An IPv6 range of a cleaned rule: `CidrIpv6` is always present. -/
structure CleanIpv6Range where
  cidrIpv6 : String
  description : Option String
deriving DecidableEq, Repr

/-- The dictionary built by `_clean_sg_rule` when the rule has a protocol. -/
structure CleanRule where
  ipProtocol : String
  fromPort : Option Int
  toPort : Option Int
  ipRanges : Option (List CleanIpRange)
  ipv6Ranges : Option (List CleanIpv6Range)
deriving DecidableEq, Repr

/-- The `for ip_range in rule['IpRanges']` loop of `_clean_sg_rule`:
keep ranges that have a `CidrIp`, carrying the optional description. -/
def clean_ip_ranges : List IpRange → List CleanIpRange
  | [] => []
  | r :: rest =>
    match r.cidrIp with
    | some c => { cidrIp := c, description := r.description } :: clean_ip_ranges rest
    | none => clean_ip_ranges rest

/-- The `for ip_range in rule['Ipv6Ranges']` loop of `_clean_sg_rule`. -/
def clean_ipv6_ranges : List Ipv6Range → List CleanIpv6Range
  | [] => []
  | r :: rest =>
    match r.cidrIpv6 with
    | some c => { cidrIpv6 := c, description := r.description } :: clean_ipv6_ranges rest
    | none => clean_ipv6_ranges rest

/-- `VpcRestore._clean_sg_rule`: returns `none` (Python `None`) for a rule
without a protocol; otherwise copies ports and filters the range lists.
A range list key is emitted only when the captured key was present and
non-empty (Python `if 'IpRanges' in rule and rule['IpRanges']`). -/
def clean_sg_rule (rule : SgRule) : Option CleanRule :=
  match rule.ipProtocol with
  | none => none
  | some proto =>
    let v4 : Option (List CleanIpRange) :=
      match rule.ipRanges with
      | some rs => if rs = [] then none else some (clean_ip_ranges rs)
      | none => none
    let v6 : Option (List CleanIpv6Range) :=
      match rule.ipv6Ranges with
      | some rs => if rs = [] then none else some (clean_ipv6_ranges rs)
      | none => none
    some { ipProtocol := proto, fromPort := rule.fromPort, toPort := rule.toPort,
           ipRanges := v4, ipv6Ranges := v6 }

/-! ## Captured data model (the snapshot as read by the restore path) -/

/-- A captured internet gateway (only `Tags` is read besides being stored). -/
structure IgwData where
  internetGatewayId : Option String
  tags : Option (List Tag)
deriving DecidableEq, Repr

/-- A captured subnet. -/
structure SubnetData where
  subnetId : Option String
  cidrBlock : Option String
  availabilityZone : Option String
  tags : Option (List Tag)
  mapPublicIpOnLaunch : Option Bool
deriving DecidableEq, Repr

/-- A captured route.  Only `GatewayId` and `DestinationCidrBlock` are read
by `restore_route_tables`; other target keys (NAT gateway, instance,
peering, ...) are never consulted. -/
structure RouteData where
  gatewayId : Option String
  destinationCidrBlock : Option String
deriving DecidableEq, Repr

/-- A captured route-table association. -/
structure AssocData where
  main : Option Bool
  subnetId : Option String
deriving DecidableEq, Repr

/-- A captured route table. -/
structure RtData where
  routeTableId : Option String
  tags : Option (List Tag)
  routes : Option (List RouteData)
  associations : Option (List AssocData)
deriving DecidableEq, Repr

/-- A captured security group. -/
structure SgData where
  groupId : Option String
  groupName : Option String
  description : Option String
  tags : Option (List Tag)
  ipPermissions : Option (List SgRule)
  ipPermissionsEgress : Option (List SgRule)
deriving DecidableEq, Repr

/-- One captured VPC (`backup_data['vpcs'][vpc_id]`): the merged
`describe_vpcs` attributes plus the child collections replayed by restore.
NAT gateways, endpoints, NACLs and peering connections are captured but
never read by the restore path, so they are not modelled. -/
structure VpcData where
  vpc_id : String
  cidrBlock : Option String
  tags : Option (List Tag)
  enableDnsSupport : Option Bool
  enableDnsHostnames : Option Bool
  internet_gateways : List IgwData
  subnets : List SubnetData
  route_tables : List RtData
  security_groups : List SgData
deriving DecidableEq, Repr

/-- A loaded snapshot: the `vpcs` dict as an insertion-ordered list. -/
structure BackupData where
  vpcs : List (String × VpcData)
deriving DecidableEq, Repr

/-! ## The EC2 provisioning API as an oracle, calls and events -/

/-- The EC2 calls issued by the restore path, with the arguments that the
code passes. -/
inductive ApiCall where
  | createVpc (cidr : String)
  | waitVpcAvailable (vpcId : String)
  | createTags (resources : List String) (tags : List Tag)
  | modifyVpcAttrDnsSupport (vpcId : String) (value : Bool)
  | modifyVpcAttrDnsHostnames (vpcId : String) (value : Bool)
  | createInternetGateway
  | attachInternetGateway (igwId : String) (vpcId : String)
  | createSubnet (vpcId : String) (cidr : String) (az : Option String)
  | modifySubnetMapPublicIp (subnetId : String) (value : Bool)
  | createRouteTable (vpcId : String)
  | createRoute (rtId : String) (destCidr : String) (gatewayId : String)
  | associateRouteTable (rtId : String) (subnetId : String)
  | createSecurityGroup (name : Option String) (description : String) (vpcId : String)
  | authorizeSecurityGroupIngress (groupId : String) (rule : CleanRule)
  | authorizeSecurityGroupEgress (groupId : String) (rule : CleanRule)
  | revokeSecurityGroupEgress (groupId : String)
deriving DecidableEq, Repr

/-- The outcome of one API call: `ok id` (the id is meaningful for the
create calls, and ignored otherwise) or a `ClientError` whose string
representation is `msg`. -/
inductive ApiResult where
  | ok (id : String)
  | err (msg : String)
deriving DecidableEq, Repr

/-- An EC2 behaviour: the result of the n-th API call of the run. -/
def Ec2Api : Type := Nat → ApiCall → ApiResult

/-- An observable event of a restore run: an API call together with its
result, or a log line (level, message). -/
inductive Event where
  | api (c : ApiCall) (r : ApiResult)
  | log (level : String) (msg : String)
deriving DecidableEq, Repr

/-- The `self.created_resources` table initialised by `VpcRestore.__init__`.
`subnets`, `route_tables` and `security_groups` are keyed by the captured
(possibly absent) original id; `internet_gateways` is keyed by whatever
string the code uses as the key (see `restore_internet_gateway`). -/
structure CreatedResources where
  vpc : Option String
  subnets : List (Option String × String)
  route_tables : List (Option String × String)
  security_groups : List (Option String × String)
  internet_gateways : List (String × IgwData)
  nat_gateways : List (String × String)
deriving DecidableEq, Repr

/-- `created_resources` as built in `VpcRestore.__init__`: all empty. -/
def initialCreated : CreatedResources :=
  { vpc := none, subnets := [], route_tables := [], security_groups := [],
    internet_gateways := [], nat_gateways := [] }

/-- The mutable state threaded through a restore run: the index of the next
API call and the created-resources table. -/
structure St where
  counter : Nat
  created : CreatedResources
deriving DecidableEq, Repr

/-- Issue one API call: ask the oracle, advance the counter, record the
event. -/
def callApi (api : Ec2Api) (s : St) (c : ApiCall) : ApiResult × St × List Event :=
  let r := api s.counter c
  (r, { s with counter := s.counter + 1 }, [Event.api c r])

/-! ## `VpcRestore.restore_vpc` -/

/-- The tag filter of `restore_vpc`: only the CloudFormation stack-name key
is skipped (`if tag['Key'] != 'aws:cloudformation:stack-name'`). -/
def vpcTagSpecs (tags : List Tag) : List Tag :=
  tags.filter (fun t => t.key ≠ "aws:cloudformation:stack-name")

/-- The tag filter used by every other restore stage:
`[tag for tag in ... if not tag['Key'].startswith('aws:')]`. -/
def awsTagSpecs (tags : List Tag) : List Tag :=
  tags.filter (fun t => !(t.key.startsWith "aws:"))

/-- `VpcRestore.restore_vpc`: create the VPC, wait, tag, set DNS
attributes, record the new id.  Any `ClientError` inside the `try` block
lands in the single handler (log `Error creating VPC`, return `None`).
The waiter's own timeout raises a non-`ClientError` and is outside this
model (its result is ignored here). -/
def restore_vpc (api : Ec2Api) (s : St) (v : VpcData) :
    Option String × St × List Event :=
  match v.cidrBlock with
  | none => (none, s, [Event.log "error" ("Missing CIDR block for VPC " ++ v.vpc_id)])
  | some cidr =>
    if cidr = "" then
      (none, s, [Event.log "error" ("Missing CIDR block for VPC " ++ v.vpc_id)])
    else
      let tags := v.tags.getD []
      let ev0 := [Event.log "info" ("Creating new VPC with CIDR " ++ cidr)]
      match callApi api s (ApiCall.createVpc cidr) with
      | (ApiResult.err m, s1, ev1) =>
        (none, s1, ev0 ++ ev1 ++ [Event.log "error" ("Error creating VPC: " ++ m)])
      | (ApiResult.ok newVpcId, s1, ev1) =>
        match callApi api s1 (ApiCall.waitVpcAvailable newVpcId) with
        | (_, s2, ev2) =>
          let tag_specs := vpcTagSpecs tags
          match (if tags = [] ∨ tag_specs = [] then (ApiResult.ok "", s2, ([] : List Event))
                 else callApi api s2 (ApiCall.createTags [newVpcId] tag_specs)) with
          | (ApiResult.err m, s3, ev3) =>
            (none, s3, ev0 ++ ev1 ++ ev2 ++ ev3 ++
              [Event.log "error" ("Error creating VPC: " ++ m)])
          | (ApiResult.ok _, s3, ev3) =>
            match (if v.enableDnsSupport.getD true then
                     callApi api s3 (ApiCall.modifyVpcAttrDnsSupport newVpcId true)
                   else (ApiResult.ok "", s3, ([] : List Event))) with
            | (ApiResult.err m, s4, ev4) =>
              (none, s4, ev0 ++ ev1 ++ ev2 ++ ev3 ++ ev4 ++
                [Event.log "error" ("Error creating VPC: " ++ m)])
            | (ApiResult.ok _, s4, ev4) =>
              match (if v.enableDnsHostnames.getD false then
                       callApi api s4 (ApiCall.modifyVpcAttrDnsHostnames newVpcId true)
                     else (ApiResult.ok "", s4, ([] : List Event))) with
              | (ApiResult.err m, s5, ev5) =>
                (none, s5, ev0 ++ ev1 ++ ev2 ++ ev3 ++ ev4 ++ ev5 ++
                  [Event.log "error" ("Error creating VPC: " ++ m)])
              | (ApiResult.ok _, s5, ev5) =>
                (some newVpcId,
                 { s5 with created := { s5.created with vpc := some newVpcId } },
                 ev0 ++ ev1 ++ ev2 ++ ev3 ++ ev4 ++ ev5 ++
                   [Event.log "info" ("Successfully created new VPC: " ++ newVpcId)])

/-! ## `VpcRestore.restore_internet_gateway` -/

/-- `VpcRestore.restore_internet_gateway`.  Note the recorded entry:
`self.created_resources['internet_gateways'][new_igw_id] = igw_data`. -/
def restore_internet_gateway (api : Ec2Api) (s : St) (igw : Option IgwData)
    (newVpcId : String) : Option String × St × List Event :=
  match igw with
  | none => (none, s, [])
  | some igw_data =>
    let ev0 := [Event.log "info" "Creating new Internet Gateway"]
    match callApi api s ApiCall.createInternetGateway with
    | (ApiResult.err m, s1, ev1) =>
      (none, s1, ev0 ++ ev1 ++ [Event.log "error" ("Error restoring Internet Gateway: " ++ m)])
    | (ApiResult.ok new_igw_id, s1, ev1) =>
      let tag_specs := awsTagSpecs (igw_data.tags.getD [])
      match (if igw_data.tags.isNone ∨ tag_specs = [] then (ApiResult.ok "", s1, ([] : List Event))
             else callApi api s1 (ApiCall.createTags [new_igw_id] tag_specs)) with
      | (ApiResult.err m, s2, ev2) =>
        (none, s2, ev0 ++ ev1 ++ ev2 ++
          [Event.log "error" ("Error restoring Internet Gateway: " ++ m)])
      | (ApiResult.ok _, s2, ev2) =>
        let ev3 := [Event.log "info"
          ("Attaching Internet Gateway " ++ new_igw_id ++ " to VPC " ++ newVpcId)]
        match callApi api s2 (ApiCall.attachInternetGateway new_igw_id newVpcId) with
        | (ApiResult.err m, s3, ev4) =>
          (none, s3, ev0 ++ ev1 ++ ev2 ++ ev3 ++ ev4 ++
            [Event.log "error" ("Error restoring Internet Gateway: " ++ m)])
        | (ApiResult.ok _, s3, ev4) =>
          (some new_igw_id,
           { s3 with created := { s3.created with
               internet_gateways := dictInsert s3.created.internet_gateways new_igw_id igw_data } },
           ev0 ++ ev1 ++ ev2 ++ ev3 ++ ev4)

/-! ## `VpcRestore.restore_subnets` -/

/-- One iteration of the `restore_subnets` loop.  Any `ClientError` in the
body lands in the per-subnet handler (`Error creating subnet`), and the
subnet is then not recorded in the mapping. -/
def restore_one_subnet (api : Ec2Api) (s : St) (newVpcId : String)
    (sd : SubnetData) : St × List Event :=
  match sd.cidrBlock with
  | none => (s, [Event.log "error" ("Missing CIDR block for subnet " ++ pyShow sd.subnetId)])
  | some cidr =>
    if cidr = "" then
      (s, [Event.log "error" ("Missing CIDR block for subnet " ++ pyShow sd.subnetId)])
    else
      let ev0 := [Event.log "info"
        ("Creating new subnet with CIDR " ++ cidr ++ " in AZ " ++ pyShow sd.availabilityZone)]
      let az : Option String :=
        if optTruthy sd.availabilityZone then sd.availabilityZone else none
      match callApi api s (ApiCall.createSubnet newVpcId cidr az) with
      | (ApiResult.err m, s1, ev1) =>
        (s1, ev0 ++ ev1 ++ [Event.log "error" ("Error creating subnet: " ++ m)])
      | (ApiResult.ok new_subnet_id, s1, ev1) =>
        let tag_specs := awsTagSpecs (sd.tags.getD [])
        match (if sd.tags.isNone ∨ tag_specs = [] then (ApiResult.ok "", s1, ([] : List Event))
               else callApi api s1 (ApiCall.createTags [new_subnet_id] tag_specs)) with
        | (ApiResult.err m, s2, ev2) =>
          (s2, ev0 ++ ev1 ++ ev2 ++ [Event.log "error" ("Error creating subnet: " ++ m)])
        | (ApiResult.ok _, s2, ev2) =>
          match (if sd.mapPublicIpOnLaunch.getD false then
                   callApi api s2 (ApiCall.modifySubnetMapPublicIp new_subnet_id true)
                 else (ApiResult.ok "", s2, ([] : List Event))) with
          | (ApiResult.err m, s3, ev3) =>
            (s3, ev0 ++ ev1 ++ ev2 ++ ev3 ++
              [Event.log "error" ("Error creating subnet: " ++ m)])
          | (ApiResult.ok _, s3, ev3) =>
            ({ s3 with created := { s3.created with
                 subnets := dictInsert s3.created.subnets sd.subnetId new_subnet_id } },
             ev0 ++ ev1 ++ ev2 ++ ev3 ++
               [Event.log "info" ("Created subnet " ++ new_subnet_id)])

/-- `VpcRestore.restore_subnets`: the loop over the captured subnets. -/
def restore_subnets (api : Ec2Api) (s : St) (newVpcId : String) :
    List SubnetData → St × List Event
  | [] => (s, [])
  | sd :: rest =>
    let (s1, e1) := restore_one_subnet api s newVpcId sd
    let (s2, e2) := restore_subnets api s1 newVpcId rest
    (s2, e1 ++ e2)

/-! ## `VpcRestore.restore_route_tables` -/

/-- One iteration of the `for route in rt_data['Routes']` loop. -/
def apply_route (api : Ec2Api) (s : St) (newRtId : String) (igwId : Option String)
    (route : RouteData) : St × List Event :=
  if route.gatewayId = some "local" then (s, [])
  else
    match route.destinationCidrBlock with
    | none => (s, [])
    | some dest =>
      if dest = "" then (s, [])
      else
        if optTruthy route.gatewayId && strContains (route.gatewayId.getD "") "igw-" &&
            optTruthy igwId then
          let ev0 := [Event.log "info" ("Creating route to " ++ dest ++ " via Internet Gateway")]
          match callApi api s (ApiCall.createRoute newRtId dest (igwId.getD "")) with
          | (ApiResult.err m, s1, ev1) =>
            (s1, ev0 ++ ev1 ++ [Event.log "error" ("Error creating route: " ++ m)])
          | (ApiResult.ok _, s1, ev1) => (s1, ev0 ++ ev1)
        else (s, [])

/-- The route loop of one table. -/
def apply_routes (api : Ec2Api) (s : St) (newRtId : String) (igwId : Option String) :
    List RouteData → St × List Event
  | [] => (s, [])
  | r :: rest =>
    let (s1, e1) := apply_route api s newRtId igwId r
    let (s2, e2) := apply_routes api s1 newRtId igwId rest
    (s2, e1 ++ e2)

/-- One iteration of the `for assoc in rt_data['Associations']` loop. -/
def apply_assoc (api : Ec2Api) (s : St) (newRtId : String) (assoc : AssocData) :
    St × List Event :=
  if assoc.main.getD false then (s, [])
  else
    match assoc.subnetId with
    | none => (s, [])
    | some sid =>
      if sid = "" then (s, [])
      else
        match dictLookup s.created.subnets (some sid) with
        | none => (s, [])
        | some new_subnet_id =>
          let ev0 := [Event.log "info"
            ("Associating route table " ++ newRtId ++ " with subnet " ++ new_subnet_id)]
          match callApi api s (ApiCall.associateRouteTable newRtId new_subnet_id) with
          | (ApiResult.err m, s1, ev1) =>
            (s1, ev0 ++ ev1 ++ [Event.log "error" ("Error associating route table: " ++ m)])
          | (ApiResult.ok _, s1, ev1) => (s1, ev0 ++ ev1)

/-- The association loop of one table. -/
def apply_assocs (api : Ec2Api) (s : St) (newRtId : String) :
    List AssocData → St × List Event
  | [] => (s, [])
  | a :: rest =>
    let (s1, e1) := apply_assoc api s newRtId a
    let (s2, e2) := apply_assocs api s1 newRtId rest
    (s2, e1 ++ e2)

/-- One iteration of the `restore_route_tables` loop.  A `ClientError`
from `create_route_table` or `create_tags` aborts this table (outer
handler `Error creating route table`); route and association failures are
handled inside their own loops. -/
def restore_one_route_table (api : Ec2Api) (s : St) (newVpcId : String)
    (igwId : Option String) (rt : RtData) : St × List Event :=
  let ev0 := [Event.log "info" "Creating new route table"]
  match callApi api s (ApiCall.createRouteTable newVpcId) with
  | (ApiResult.err m, s1, ev1) =>
    (s1, ev0 ++ ev1 ++ [Event.log "error" ("Error creating route table: " ++ m)])
  | (ApiResult.ok new_rt_id, s1, ev1) =>
    let tag_specs := awsTagSpecs (rt.tags.getD [])
    match (if rt.tags.isNone ∨ tag_specs = [] then (ApiResult.ok "", s1, ([] : List Event))
           else callApi api s1 (ApiCall.createTags [new_rt_id] tag_specs)) with
    | (ApiResult.err m, s2, ev2) =>
      (s2, ev0 ++ ev1 ++ ev2 ++ [Event.log "error" ("Error creating route table: " ++ m)])
    | (ApiResult.ok _, s2, ev2) =>
      let (s3, ev3) :=
        match rt.routes with
        | none => (s2, ([] : List Event))
        | some routes => apply_routes api s2 new_rt_id igwId routes
      let (s4, ev4) :=
        match rt.associations with
        | none => (s3, ([] : List Event))
        | some assocs => apply_assocs api s3 new_rt_id assocs
      ({ s4 with created := { s4.created with
           route_tables := dictInsert s4.created.route_tables rt.routeTableId new_rt_id } },
       ev0 ++ ev1 ++ ev2 ++ ev3 ++ ev4 ++
         [Event.log "info" ("Created route table " ++ new_rt_id)])

/-- `VpcRestore.restore_route_tables`: the loop over the captured tables. -/
def restore_route_tables (api : Ec2Api) (s : St) (newVpcId : String)
    (igwId : Option String) : List RtData → St × List Event
  | [] => (s, [])
  | rt :: rest =>
    let (s1, e1) := restore_one_route_table api s newVpcId igwId rt
    let (s2, e2) := restore_route_tables api s1 newVpcId igwId rest
    (s2, e1 ++ e2)

/-! ## `VpcRestore.restore_security_groups` -/

/-- One iteration of the first (`create groups`) pass.  A group named
`default` is skipped before any call; a `ClientError` from creation or
tagging lands in the per-group handler and the group is not recorded. -/
def sg_create_one (api : Ec2Api) (s : St) (newVpcId : String) (sg : SgData) :
    St × List Event :=
  if sg.groupName = some "default" then (s, [])
  else
    let ev0 := [Event.log "info" ("Creating security group " ++ pyShow sg.groupName)]
    match callApi api s (ApiCall.createSecurityGroup sg.groupName
        (sg.description.getD "Restored security group") newVpcId) with
    | (ApiResult.err m, s1, ev1) =>
      (s1, ev0 ++ ev1 ++ [Event.log "error" ("Error creating security group: " ++ m)])
    | (ApiResult.ok new_sg_id, s1, ev1) =>
      let tag_specs := awsTagSpecs (sg.tags.getD [])
      match (if sg.tags.isNone ∨ tag_specs = [] then (ApiResult.ok "", s1, ([] : List Event))
             else callApi api s1 (ApiCall.createTags [new_sg_id] tag_specs)) with
      | (ApiResult.err m, s2, ev2) =>
        (s2, ev0 ++ ev1 ++ ev2 ++ [Event.log "error" ("Error creating security group: " ++ m)])
      | (ApiResult.ok _, s2, ev2) =>
        ({ s2 with created := { s2.created with
             security_groups := dictInsert s2.created.security_groups sg.groupId new_sg_id } },
         ev0 ++ ev1 ++ ev2)

/-- The first pass over the captured groups. -/
def sg_pass1 (api : Ec2Api) (s : St) (newVpcId : String) :
    List SgData → St × List Event
  | [] => (s, [])
  | sg :: rest =>
    let (s1, e1) := sg_create_one api s newVpcId sg
    let (s2, e2) := sg_pass1 api s1 newVpcId rest
    (s2, e1 ++ e2)

/-- One iteration of the ingress-rule loop: clean the rule, authorize it if
expressible, swallow `InvalidPermission.Duplicate` errors. -/
def apply_ingress_rule (api : Ec2Api) (s : St) (grp : String) (rule : SgRule) :
    St × List Event :=
  match clean_sg_rule rule with
  | none => (s, [])
  | some cr =>
    let ev0 := [Event.log "info" ("Adding ingress rule to security group " ++ grp)]
    match callApi api s (ApiCall.authorizeSecurityGroupIngress grp cr) with
    | (ApiResult.ok _, s1, ev1) => (s1, ev0 ++ ev1)
    | (ApiResult.err m, s1, ev1) =>
      if strContains m "InvalidPermission.Duplicate" then (s1, ev0 ++ ev1)
      else (s1, ev0 ++ ev1 ++ [Event.log "error" ("Error adding ingress rule: " ++ m)])

/-- The ingress-rule loop of one group. -/
def apply_ingress_rules (api : Ec2Api) (s : St) (grp : String) :
    List SgRule → St × List Event
  | [] => (s, [])
  | r :: rest =>
    let (s1, e1) := apply_ingress_rule api s grp r
    let (s2, e2) := apply_ingress_rules api s1 grp rest
    (s2, e1 ++ e2)

/-- One iteration of the egress-rule loop. -/
def apply_egress_rule (api : Ec2Api) (s : St) (grp : String) (rule : SgRule) :
    St × List Event :=
  match clean_sg_rule rule with
  | none => (s, [])
  | some cr =>
    let ev0 := [Event.log "info" ("Adding egress rule to security group " ++ grp)]
    match callApi api s (ApiCall.authorizeSecurityGroupEgress grp cr) with
    | (ApiResult.ok _, s1, ev1) => (s1, ev0 ++ ev1)
    | (ApiResult.err m, s1, ev1) =>
      if strContains m "InvalidPermission.Duplicate" then (s1, ev0 ++ ev1)
      else (s1, ev0 ++ ev1 ++ [Event.log "error" ("Error adding egress rule: " ++ m)])

/-- The egress-rule loop of one group. -/
def apply_egress_rules (api : Ec2Api) (s : St) (grp : String) :
    List SgRule → St × List Event
  | [] => (s, [])
  | r :: rest =>
    let (s1, e1) := apply_egress_rule api s grp r
    let (s2, e2) := apply_egress_rules api s1 grp rest
    (s2, e1 ++ e2)

/-- One iteration of the second (`add rules`) pass: skipped for the default
group and for groups missing from the mapping.  When the captured data has
an `IpPermissionsEgress` key the implicit allow-all egress rule is revoked
first (failure swallowed). -/
def sg_rules_one (api : Ec2Api) (s : St) (sg : SgData) : St × List Event :=
  if sg.groupName = some "default" then (s, [])
  else
    match dictLookup s.created.security_groups sg.groupId with
    | none => (s, [])
    | some new_sg_id =>
      let (s1, e1) :=
        match sg.ipPermissions with
        | none => (s, ([] : List Event))
        | some rules => apply_ingress_rules api s new_sg_id rules
      match sg.ipPermissionsEgress with
      | none => (s1, e1)
      | some rules =>
        match callApi api s1 (ApiCall.revokeSecurityGroupEgress new_sg_id) with
        | (_, s2, ev2) =>
          let (s3, e3) := apply_egress_rules api s2 new_sg_id rules
          (s3, e1 ++ ev2 ++ e3)

/-- The second pass over the captured groups. -/
def sg_pass2 (api : Ec2Api) (s : St) : List SgData → St × List Event
  | [] => (s, [])
  | sg :: rest =>
    let (s1, e1) := sg_rules_one api s sg
    let (s2, e2) := sg_pass2 api s1 rest
    (s2, e1 ++ e2)

/-- `VpcRestore.restore_security_groups`: pass 1 (create all non-default
groups) then pass 2 (attach rules). -/
def restore_security_groups (api : Ec2Api) (s : St) (newVpcId : String)
    (sgs : List SgData) : St × List Event :=
  let (s1, e1) := sg_pass1 api s newVpcId sgs
  let (s2, e2) := sg_pass2 api s1 sgs
  (s2, e1 ++ e2)

/-! ## Snapshot repository (`find_latest_backup`, `load_backup_data`) -/

/-- The result of `s3.get_object`: the parsed snapshot, a `NoSuchKey`
`ClientError`, or some other `ClientError`. -/
inductive S3GetResult where
  | found (d : BackupData)
  | noSuchKey
  | otherErr (m : String)
deriving DecidableEq, Repr

/-- The S3 behaviour seen by the restore path: `list_objects_v2` (with a
`Delimiter`) answered by its `CommonPrefixes` (or a `ClientError`), and
`get_object` answered by key. -/
structure S3Api where
  listCommonPrefixes : String → Except String (List String)
  getObject : String → S3GetResult

/-- The constructor arguments of `VpcRestore` (plus the account id and
session region obtained in `__init__`). -/
structure RestoreConfig where
  bucket : String
  timestamp : Option String
  target_vpc_id : Option String
  region : Option String
  account_id : String
  current_region : String
deriving DecidableEq, Repr

/-- The search key `vpc-backups/{account_id}/{region or current_region}/`
built by `find_latest_backup`, `list_backups` and `load_backup_data`. -/
def search_base (cfg : RestoreConfig) : String :=
  "vpc-backups/" ++ cfg.account_id ++ "/" ++
    (match cfg.region with
     | some r => if r = "" then cfg.current_region else r
     | none => cfg.current_region) ++ "/"

/-- Code-point lexicographic comparison of character lists: the order
Python uses to compare strings. -/
def charListLe : List Char → List Char → Bool
  | [], _ => true
  | _ :: _, [] => false
  | a :: as, b :: bs =>
    if a.toNat < b.toNat then true
    else if b.toNat < a.toNat then false
    else charListLe as bs

/-- Python string comparison `a <= b` (lexical by code point). -/
def strLe (a b : String) : Bool := charListLe a.toList b.toList

/-- Python `sorted` on strings: a stable ascending sort in lexical string
order. -/
def py_sorted (l : List String) : List String :=
  l.insertionSort (fun a b => strLe a b = true)

/-- Python `s.split(sep)` for a one-character separator. -/
def splitOnChar (sep : Char) : List Char → List (List Char)
  | [] => [[]]
  | c :: rest =>
    if c = sep then [] :: splitOnChar sep rest
    else
      match splitOnChar sep rest with
      | [] => [[c]]
      | h :: t => (c :: h) :: t

/-- Python `p.split('/')[-2]` on an S3 common prefix (the timestamp
directory component). -/
def extract_timestamp (p : String) : String :=
  (((splitOnChar '/' p.toList).map (fun cs => String.mk cs)).reverse.get? 1).getD ""

/-- `VpcRestore.find_latest_backup`: list the timestamp directories for the
account and region, take `sorted(...)[-1]`, and extract the timestamp
(assigned to `self.timestamp`).  Returns `None` on a `ClientError` or when
no `CommonPrefixes` come back. -/
def find_latest_backup (s3 : S3Api) (cfg : RestoreConfig) : Option (String × String) :=
  match s3.listCommonPrefixes (search_base cfg) with
  | Except.error _ => none
  | Except.ok ps =>
    if ps = [] then none
    else
      match (py_sorted ps).getLast? with
      | none => none
      | some latest => some (latest, extract_timestamp latest)

/-- `VpcRestore.load_backup_data`: resolve the prefix (explicit timestamp,
or latest), then try `vpc_config.json` and fall back to `vpc_config.yaml`
on `NoSuchKey`. -/
def load_backup_data (s3 : S3Api) (cfg : RestoreConfig) : Option BackupData :=
  let found : Option String :=
    if optTruthy cfg.timestamp then
      some (search_base cfg ++ cfg.timestamp.getD "" ++ "/")
    else
      (find_latest_backup s3 cfg).map (fun x => x.1)
  match found with
  | none => none
  | some p =>
    match s3.getObject (p ++ "vpc_config.json") with
    | S3GetResult.found d => some d
    | S3GetResult.noSuchKey =>
      match s3.getObject (p ++ "vpc_config.yaml") with
      | S3GetResult.found d => some d
      | S3GetResult.noSuchKey => none
      | S3GetResult.otherErr _ => none
    | S3GetResult.otherErr _ => none

/-! ## `VpcRestore.restore_vpc_from_backup` and `cmd_restore` -/

/-- The body of the `for vpc_id in vpc_ids` loop of
`restore_vpc_from_backup`: restore the VPC, then (on success) its gateway,
subnets, route tables and security groups, and log the mapping report from
the accumulated `created_resources`. -/
def restoreOneVpc (api : Ec2Api) (s : St) (vpc_id : String) (vd : VpcData) :
    St × List Event :=
  let ev0 := [Event.log "info" ("Restoring VPC " ++ vpc_id ++ "...")]
  match restore_vpc api s vd with
  | (none, s1, ev1) =>
    (s1, ev0 ++ ev1 ++ [Event.log "error" ("Failed to restore VPC " ++ vpc_id)])
  | (some newVpcId, s1, ev1) =>
    let (igwOpt, s2, ev2) :=
      if vd.internet_gateways.isEmpty then ((none : Option String), s1, ([] : List Event))
      else restore_internet_gateway api s1 vd.internet_gateways.head? newVpcId
    let ev3 := [Event.log "info" "Restoring subnets..."]
    let (s3, ev4) := restore_subnets api s2 newVpcId vd.subnets
    let ev5 := [Event.log "info" "Restoring route tables..."]
    let (s4, ev6) := restore_route_tables api s3 newVpcId igwOpt vd.route_tables
    let ev7 := [Event.log "info" "Restoring security groups..."]
    let (s5, ev8) := restore_security_groups api s4 newVpcId vd.security_groups
    let report :=
      [Event.log "info" ("VPC " ++ vpc_id ++ " has been restored to " ++ newVpcId),
       Event.log "info" "Resource mappings (original ID -> new ID):",
       Event.log "info" ("  VPC: " ++ vpc_id ++ " -> " ++ newVpcId)] ++
      s5.created.subnets.map (fun kv =>
        Event.log "info" ("  Subnet: " ++ pyShow kv.1 ++ " -> " ++ kv.2)) ++
      s5.created.route_tables.map (fun kv =>
        Event.log "info" ("  Route Table: " ++ pyShow kv.1 ++ " -> " ++ kv.2)) ++
      s5.created.security_groups.map (fun kv =>
        Event.log "info" ("  Security Group: " ++ pyShow kv.1 ++ " -> " ++ kv.2))
    (s5, ev0 ++ ev1 ++ ev2 ++ ev3 ++ ev4 ++ ev5 ++ ev6 ++ ev7 ++ ev8 ++ report)

/-- The `for vpc_id in vpc_ids` loop. -/
def restoreVpcLoop (api : Ec2Api) (vpcs : List (String × VpcData)) (s : St) :
    List String → St × List Event
  | [] => (s, [])
  | vid :: rest =>
    match dictLookup vpcs vid with
    | none => restoreVpcLoop api vpcs s rest
    | some vd =>
      let (s1, e1) := restoreOneVpc api s vid vd
      let (s2, e2) := restoreVpcLoop api vpcs s1 rest
      (s2, e1 ++ e2)

/-- `VpcRestore.restore_vpc_from_backup`: load, validate, loop over the
selected VPCs (the whole backup, or just `--vpc-id`).  Always returns
`True` once the loop is entered, whatever happened inside it. -/
def restore_vpc_from_backup (api : Ec2Api) (s3 : S3Api) (cfg : RestoreConfig)
    (s : St) : Bool × St × List Event :=
  match load_backup_data s3 cfg with
  | none => (false, s, [Event.log "error" "Failed to load backup data"])
  | some bd =>
    if bd.vpcs = [] then (false, s, [Event.log "error" "No VPCs found in backup data"])
    else
      if optTruthy cfg.target_vpc_id &&
          (dictLookup bd.vpcs (cfg.target_vpc_id.getD "")).isNone then
        (false, s, [Event.log "error"
          ("VPC " ++ cfg.target_vpc_id.getD "" ++ " not found in backup data")])
      else
        let vpc_ids : List String :=
          if optTruthy cfg.target_vpc_id then [cfg.target_vpc_id.getD ""]
          else bd.vpcs.map (fun kv => kv.1)
        let (s1, ev) := restoreVpcLoop api bd.vpcs s vpc_ids
        (true, s1, ev)

/-- `cmd_restore`: construct `VpcRestore` (fresh, empty
`created_resources`), run the restore, exit 0 on `True` and 1 on `False`.
The `except Exception` path (unhandled exceptions) is outside this model:
no modelled operation raises. -/
def cmd_restore (api : Ec2Api) (s3 : S3Api) (cfg : RestoreConfig) :
    Nat × St × List Event :=
  let s0 : St := { counter := 0, created := initialCreated }
  match restore_vpc_from_backup api s3 cfg s0 with
  | (true, s, ev) => (0, s, ev ++ [Event.log "info" "VPC restore completed successfully"])
  | (false, s, ev) => (1, s, ev ++ [Event.log "error" "VPC restore failed"])

/-! ## Oracles and interpreted attribute state -/

/-- An EC2 behaviour on which every call succeeds, minting the id `id-n`
for the n-th call. -/
def happyApi : Ec2Api := fun n _ => ApiResult.ok ("id-" ++ toString n)

/-- An EC2 behaviour on which every call succeeds with some id. -/
def ApiAllOk (api : Ec2Api) : Prop :=
  ∀ n c, ∃ i, api n c = ApiResult.ok i

/-- The `enableDnsSupport` attribute of a VPC after a list of events, per
the provisioning API's documented behaviour: a newly created VPC has DNS
support enabled, and each successful `modify_vpc_attribute` call sets it. -/
def finalDnsSupport (ev : List Event) (vpcId : String) : Bool :=
  ev.foldl (fun acc e =>
    match e with
    | Event.api (ApiCall.modifyVpcAttrDnsSupport v b) (ApiResult.ok _) =>
      if v = vpcId then b else acc
    | _ => acc) true

/-- The `enableDnsHostnames` attribute of a VPC after a list of events: a
newly created VPC has DNS hostnames disabled, and each successful
`modify_vpc_attribute` call sets it. -/
def finalDnsHostnames (ev : List Event) (vpcId : String) : Bool :=
  ev.foldl (fun acc e =>
    match e with
    | Event.api (ApiCall.modifyVpcAttrDnsHostnames v b) (ApiResult.ok _) =>
      if v = vpcId then b else acc
    | _ => acc) false

/-! ## Concrete fixtures for witnesses and counterexamples -/

/-- The initial state of a run: call counter 0 and the empty
`created_resources` of `__init__`. -/
def st0 : St := { counter := 0, created := initialCreated }

/-- An S3 behaviour that returns the given snapshot for every key. -/
def s3Of (bd : BackupData) : S3Api :=
  { listCommonPrefixes := fun _ => Except.ok [],
    getObject := fun _ => S3GetResult.found bd }

/-- A restore invocation with an explicit timestamp and no VPC filter. -/
def cfgSnap : RestoreConfig :=
  { bucket := "backups", timestamp := some "2024-01-01-00-00-00",
    target_vpc_id := none, region := some "us-east-1",
    account_id := "123456789012", current_region := "us-east-1" }

/-- A restore invocation with no timestamp (resolve "latest"). -/
def cfgLatest : RestoreConfig := { cfgSnap with timestamp := none }

/-- A captured subnet `subnet-A` of the first network. -/
def subnetA : SubnetData :=
  { subnetId := some "subnet-A", cidrBlock := some "10.0.1.0/24",
    availabilityZone := none, tags := none, mapPublicIpOnLaunch := none }

/-- First captured network: owns `subnet-A`. -/
def vpcOne : VpcData :=
  { vpc_id := "vpc-1", cidrBlock := some "10.0.0.0/16", tags := none,
    enableDnsSupport := none, enableDnsHostnames := none,
    internet_gateways := [], subnets := [subnetA], route_tables := [],
    security_groups := [] }

/-- A route table of the second network whose association names
`subnet-A`, an original id that belongs to the first network. -/
def rtCrossRef : RtData :=
  { routeTableId := some "rtb-B", tags := none, routes := none,
    associations := some [{ main := some false, subnetId := some "subnet-A" }] }

/-- Second captured network: no subnets of its own, one route table. -/
def vpcTwo : VpcData :=
  { vpc_id := "vpc-2", cidrBlock := some "10.1.0.0/16", tags := none,
    enableDnsSupport := none, enableDnsHostnames := none,
    internet_gateways := [], subnets := [], route_tables := [rtCrossRef],
    security_groups := [] }

/-- A snapshot holding two networks. -/
def backupTwoVpcs : BackupData := { vpcs := [("vpc-1", vpcOne), ("vpc-2", vpcTwo)] }

/-- A captured network with DNS support explicitly disabled. -/
def vpcDnsOff : VpcData :=
  { vpcOne with vpc_id := "vpc-9", subnets := [], enableDnsSupport := some false }

/-- A captured network carrying a platform-reserved tag key (an `aws:`
key other than the CloudFormation stack name) next to a user tag. -/
def vpcAwsTagged : VpcData :=
  { vpcOne with
    vpc_id := "vpc-7", subnets := [],
    tags := some [{ key := "aws:backup-plan-id", value := "plan-1" },
                  { key := "Name", value := "prod" }] }

/-- A captured network with no CIDR block. -/
def vpcNoCidr : VpcData :=
  { vpcOne with vpc_id := "vpc-nc", cidrBlock := none, subnets := [] }

/-- A snapshot whose only network cannot be restored (no CIDR). -/
def backupNoCidr : BackupData := { vpcs := [("vpc-nc", vpcNoCidr)] }

/-- A captured internet gateway with an original id. -/
def igwCaptured : IgwData := { internetGatewayId := some "igw-old", tags := none }

/-- An S3 behaviour listing two snapshot timestamp directories for
`cfgLatest`'s account and region. -/
def s3Snapshots : S3Api :=
  { listCommonPrefixes := fun _ => Except.ok
      ["vpc-backups/123456789012/us-east-1/2024-01-01-00-00-00/",
       "vpc-backups/123456789012/us-east-1/2024-06-01-00-00-00/"],
    getObject := fun _ => S3GetResult.noSuchKey }

/-- The route table of the spec's route-restoration example: a local route
and a default route through an internet gateway. -/
def rtLocalPlusIgw : RtData :=
  { routeTableId := some "rtb-1", tags := none,
    routes := some
      [{ gatewayId := some "local", destinationCidrBlock := some "10.0.0.0/16" },
       { gatewayId := some "igw-A", destinationCidrBlock := some "0.0.0.0/0" }],
    associations := none }

/-- A captured default security group next to an ordinary one. -/
def sgDefaultAndWeb : List SgData :=
  [{ groupId := some "sg-def", groupName := some "default",
     description := some "default VPC security group", tags := none,
     ipPermissions := none, ipPermissionsEgress := none },
   { groupId := some "sg-web", groupName := some "web",
     description := some "web tier", tags := none,
     ipPermissions := none, ipPermissionsEgress := none }]

/-- The create-route calls among a list of events (destination and
gateway argument of each `create_route`). -/
def routeCreates (ev : List Event) : List (String × String) :=
  ev.filterMap fun e =>
    match e with
    | Event.api (ApiCall.createRoute _ d g) _ => some (d, g)
    | _ => none

/-- The create-security-group calls among a list of events (the group
name argument of each `create_security_group`). -/
def sgCreates (ev : List Event) : List (Option String) :=
  ev.filterMap fun e =>
    match e with
    | Event.api (ApiCall.createSecurityGroup nm _ _) _ => some nm
    | _ => none

/-- The create-tags calls among a list of events (resources and tag list
of each `create_tags`). -/
def tagCreates (ev : List Event) : List (List String × List Tag) :=
  ev.filterMap fun e =>
    match e with
    | Event.api (ApiCall.createTags rs ts) _ => some (rs, ts)
    | _ => none

/-! # Theorems -/

/-! ## Generic helper lemmas -/

theorem happyApi_allOk : ApiAllOk happyApi := fun n _ => ⟨"id-" ++ toString n, rfl⟩

theorem mem_of_mem_dictInsert {κ α : Type} [DecidableEq κ] :
    ∀ (l : List (κ × α)) (k : κ) (v : α) (p : κ × α),
      p ∈ dictInsert l k v → p ∈ l ∨ p = (k, v) := by
  intro l k v p h
  induction l with
  | nil => exact Or.inr (by simpa [dictInsert] using h)
  | cons hd tl ih =>
    obtain ⟨k0, v0⟩ := hd
    rw [dictInsert] at h
    by_cases he : k0 = k
    · rw [if_pos he] at h
      rcases List.mem_cons.mp h with h | h
      · exact Or.inr h
      · exact Or.inl (List.mem_cons_of_mem _ h)
    · rw [if_neg he] at h
      rcases List.mem_cons.mp h with h | h
      · exact Or.inl (h ▸ List.mem_cons_self _ _)
      · rcases ih h with h | h
        · exact Or.inl (List.mem_cons_of_mem _ h)
        · exact Or.inr h

theorem dictLookup_isSome_insert {κ α : Type} [DecidableEq κ] :
    ∀ (l : List (κ × α)) (k k2 : κ) (v : α),
      (dictLookup l k2).isSome = true →
      (dictLookup (dictInsert l k v) k2).isSome = true := by
  intro l k k2 v h
  induction l with
  | nil => simp [dictLookup] at h
  | cons hd tl ih =>
    obtain ⟨k0, v0⟩ := hd
    by_cases he : k0 = k
    · subst he
      by_cases h2 : k0 = k2
      · subst h2
        simp [dictInsert, dictLookup]
      · simp only [dictInsert, dictLookup, if_pos rfl, if_neg h2] at h ⊢
        exact h
    · by_cases h2 : k0 = k2
      · subst h2
        simp [dictInsert, dictLookup, he]
      · simp only [dictInsert, dictLookup, if_neg he, if_neg h2] at h ⊢
        exact ih h

theorem charListLe_refl : ∀ as, charListLe as as = true := by
  intro as
  induction as with
  | nil => rfl
  | cons a t ih => simp [charListLe, ih]

theorem charListLe_total : ∀ as bs, charListLe as bs = true ∨ charListLe bs as = true := by
  intro as
  induction as with
  | nil => intro bs; exact Or.inl rfl
  | cons a t ih =>
    intro bs
    cases bs with
    | nil => exact Or.inr rfl
    | cons b u =>
      by_cases h1 : a.toNat < b.toNat
      · exact Or.inl (by simp [charListLe, h1])
      · by_cases h2 : b.toNat < a.toNat
        · exact Or.inr (by simp [charListLe, h2])
        · rcases ih u with h | h
          · exact Or.inl (by simp [charListLe, h1, h2, h])
          · exact Or.inr (by simp [charListLe, h1, h2, h])

theorem charListLe_trans : ∀ as bs cs, charListLe as bs = true →
    charListLe bs cs = true → charListLe as cs = true := by
  intro as
  induction as with
  | nil => intro _ _ _ _; rfl
  | cons a t ih =>
    intro bs cs h1 h2
    cases bs with
    | nil => simp [charListLe] at h1
    | cons b u =>
      cases cs with
      | nil => simp [charListLe] at h2
      | cons c w =>
        simp only [charListLe] at h1 h2 ⊢
        split_ifs at h1 h2 ⊢ <;> first | rfl | omega | exact ih u w h1 h2

theorem strLe_refl (a : String) : strLe a a = true := charListLe_refl a.toList

theorem rel_getLast_of_sorted {α : Type} {r : α → α → Prop} (hrefl : ∀ a, r a a) :
    ∀ (l : List α), l.Sorted r → ∀ x ∈ l, ∀ m, l.getLast? = some m → r x m := by
  intro l
  induction l with
  | nil => intro _ x hx; simp at hx
  | cons a t ih =>
    intro hs x hx m hm
    rcases List.sorted_cons.mp hs with ⟨ha, ht⟩
    cases t with
    | nil =>
      rw [List.getLast?_singleton] at hm
      have hxa : x = a := by simpa using hx
      have hma : a = m := by simpa using hm
      subst hxa
      rw [← hma]
      exact hrefl x
    | cons b t2 =>
      rw [List.getLast?_cons_cons] at hm
      rcases List.mem_cons.mp hx with rfl | hx2
      · obtain ⟨hh, hmeq⟩ := List.mem_getLast?_eq_getLast hm
        rw [hmeq]
        exact ha _ (List.getLast_mem hh)
      · exact ih ht x hx2 m hm

theorem py_sorted_getLast_max (l : List String) (h : l ≠ []) :
    ∃ m, (py_sorted l).getLast? = some m ∧ m ∈ l ∧ ∀ x ∈ l, strLe x m = true := by
  haveI hT : IsTotal String (fun a b => strLe a b = true) :=
    ⟨fun a b => charListLe_total a.toList b.toList⟩
  haveI hTr : IsTrans String (fun a b => strLe a b = true) :=
    ⟨fun a b c => charListLe_trans a.toList b.toList c.toList⟩
  have hperm : List.Perm (py_sorted l) l := List.perm_insertionSort _ l
  have hsorted : (py_sorted l).Sorted (fun a b => strLe a b = true) :=
    List.sorted_insertionSort _ l
  have hne : py_sorted l ≠ [] := by
    intro h0
    apply h
    have hl := hperm.length_eq
    rw [h0] at hl
    exact List.length_eq_zero.mp hl.symm
  have hm := List.getLast?_eq_getLast_of_ne_nil hne
  refine ⟨(py_sorted l).getLast hne, hm, ?_, ?_⟩
  · exact hperm.mem_iff.mp (List.getLast_mem hne)
  · intro x hx
    exact rel_getLast_of_sorted strLe_refl _ hsorted x (hperm.mem_iff.mpr hx) _ hm

/-! ## Claim C8: resolving "latest" -/

/-- C8: resolving the "latest" snapshot selects the lexically maximal
timestamp directory among the snapshots the store lists for the
configured account and region (`sorted(...)[-1]`), and yields a
not-found outcome (`None`, hence a load failure) when no snapshots
exist. -/
theorem find_latest_backup_is_max (s3 : S3Api) (cfg : RestoreConfig) (ps : List String)
    (h : s3.listCommonPrefixes (search_base cfg) = Except.ok ps) :
    (ps = [] → find_latest_backup s3 cfg = none ∧
      (optTruthy cfg.timestamp = false → load_backup_data s3 cfg = none)) ∧
    (ps ≠ [] → ∃ p, find_latest_backup s3 cfg = some (p, extract_timestamp p) ∧
      p ∈ ps ∧ ∀ q ∈ ps, strLe q p = true) := by
  constructor
  · rintro rfl
    have hfl : find_latest_backup s3 cfg = none := by
      simp [find_latest_backup, h]
    refine ⟨hfl, fun ht => ?_⟩
    simp [load_backup_data, ht, hfl]
  · intro hne
    obtain ⟨m, hm, hmem, hmax⟩ := py_sorted_getLast_max ps hne
    refine ⟨m, ?_, hmem, hmax⟩
    simp [find_latest_backup, h, hne, hm]

/-- Witness for C8 at the spec's own example: between
`2024-01-01-00-00-00` and `2024-06-01-00-00-00` the second is selected,
and it is the lexical maximum of the listing. -/
theorem find_latest_backup_is_max_witness :
    find_latest_backup s3Snapshots cfgLatest =
      some ("vpc-backups/123456789012/us-east-1/2024-06-01-00-00-00/",
            "2024-06-01-00-00-00") ∧
    (∃ p, find_latest_backup s3Snapshots cfgLatest = some (p, extract_timestamp p) ∧
      p ∈ ["vpc-backups/123456789012/us-east-1/2024-01-01-00-00-00/",
           "vpc-backups/123456789012/us-east-1/2024-06-01-00-00-00/"] ∧
      ∀ q ∈ ["vpc-backups/123456789012/us-east-1/2024-01-01-00-00-00/",
             "vpc-backups/123456789012/us-east-1/2024-06-01-00-00-00/"],
        strLe q p = true) :=
  ⟨by decide,
   (find_latest_backup_is_max s3Snapshots cfgLatest _ rfl).2 (by decide)⟩

/-! ## Claim C10: routes with non-gateway targets are dropped silently -/

/-- C10: a captured route whose target is neither the implicit local route
nor an internet gateway (no `GatewayId`, or a `GatewayId` not containing
`igw-`) is dropped without any API call, state change or log line, even
when its destination CIDR is present — the loop iteration is a no-op. -/
theorem apply_route_non_igw_noop (api : Ec2Api) (s : St) (newRtId : String)
    (igwId : Option String) (route : RouteData)
    (hloc : route.gatewayId ≠ some "local")
    (higw : ∀ g, route.gatewayId = some g → strContains g "igw-" = false) :
    apply_route api s newRtId igwId route = (s, []) := by
  unfold apply_route
  rw [if_neg hloc]
  have hcond : (optTruthy route.gatewayId &&
      strContains (route.gatewayId.getD "") "igw-" && optTruthy igwId) = false := by
    cases hgw : route.gatewayId with
    | none => simp [optTruthy]
    | some g => simp [higw g hgw]
  cases hdest : route.destinationCidrBlock with
  | none => rfl
  | some dest => simp [hcond]

/-- Witness for C10: a NAT-gateway-style route (no `GatewayId`) and a
virtual-private-gateway route (`vgw-1`) with destinations present are both
no-ops. -/
theorem apply_route_non_igw_noop_witness :
    apply_route happyApi st0 "rtb-new" (some "igw-new")
      { gatewayId := none, destinationCidrBlock := some "10.5.0.0/16" } = (st0, []) ∧
    apply_route happyApi st0 "rtb-new" (some "igw-new")
      { gatewayId := some "vgw-1", destinationCidrBlock := some "0.0.0.0/0" } = (st0, []) :=
  ⟨apply_route_non_igw_noop happyApi st0 "rtb-new" (some "igw-new") _
     (by decide) (fun g hg => by cases hg),
   apply_route_non_igw_noop happyApi st0 "rtb-new" (some "igw-new") _
     (by decide) (fun g hg => by cases hg; decide)⟩

/-! ## Claim C6: the local route is filtered, the gateway route recreated -/

theorem routeCreates_append (a b : List Event) :
    routeCreates (a ++ b) = routeCreates a ++ routeCreates b := by
  simp [routeCreates, List.filterMap_append]

theorem routeCreates_apply_assoc (api : Ec2Api) (s : St) (newRtId : String)
    (a : AssocData) : routeCreates (apply_assoc api s newRtId a).2 = [] := by
  unfold apply_assoc
  cases hmb : a.main.getD false
  · cases hsub : a.subnetId with
    | none => simp [hmb, routeCreates]
    | some sid =>
      by_cases hsid : sid = ""
      · simp [hmb, hsid, routeCreates]
      · cases hl : dictLookup s.created.subnets (some sid) with
        | none => simp [hmb, hsid, hl, routeCreates]
        | some nsid =>
          cases hapi : api s.counter (ApiCall.associateRouteTable newRtId nsid) with
          | ok i => simp [hmb, hsid, hl, callApi, hapi, routeCreates]
          | err m => simp [hmb, hsid, hl, callApi, hapi, routeCreates]
  · simp [hmb, routeCreates]

theorem routeCreates_apply_assocs (api : Ec2Api) (newRtId : String) :
    ∀ (al : List AssocData) (s : St),
      routeCreates (apply_assocs api s newRtId al).2 = [] := by
  intro al
  induction al with
  | nil => intro s; rfl
  | cons a rest ih =>
    intro s
    unfold apply_assocs
    rcases hsp : apply_assoc api s newRtId a with ⟨s1, e1⟩
    rcases hsp2 : apply_assocs api s1 newRtId rest with ⟨s2, e2⟩
    have h1 : routeCreates e1 = [] := by
      have hx := routeCreates_apply_assoc api s newRtId a
      rw [hsp] at hx
      exact hx
    have h2 : routeCreates e2 = [] := by
      have hx := ih s1
      rw [hsp2] at hx
      exact hx
    simp [hsp, hsp2, routeCreates_append, h1, h2]

/-- C6: restoring the spec's example table (a `local` route plus a
default route through `igw-A`) with a freshly created gateway issues no
create-route call for the local route and exactly one create-route call,
to `0.0.0.0/0`, targeting the new gateway's id. -/
theorem restore_route_tables_local_igw (api : Ec2Api) (hok : ApiAllOk api) (s : St)
    (rtId : Option String) (tgs : Option (List Tag)) (assocs : Option (List AssocData))
    (newVpcId g : String) (hg : g ≠ "") :
    routeCreates (restore_route_tables api s newVpcId (some g)
      [{ routeTableId := rtId, tags := tgs,
         routes := some [{ gatewayId := some "local", destinationCidrBlock := some "10.0.0.0/16" },
                         { gatewayId := some "igw-A", destinationCidrBlock := some "0.0.0.0/0" }],
         associations := assocs }]).2 = [("0.0.0.0/0", g)] := by
  have hgb : (g == "") = false := by
    cases hb : (g == "") with
    | false => rfl
    | true => exact absurd (by simpa using hb) hg
  have higwA : strContains "igw-A" "igw-" = true := by decide
  obtain ⟨i1, h1⟩ := hok s.counter (ApiCall.createRouteTable newVpcId)
  simp only [restore_route_tables, restore_one_route_table, callApi, h1]
  by_cases htag : tgs.isNone = true ∨ awsTagSpecs (tgs.getD []) = []
  · simp only [if_pos htag]
    obtain ⟨i2, h2⟩ := hok (s.counter + 1) (ApiCall.createRoute i1 "0.0.0.0/0" g)
    simp only [apply_routes, apply_route, callApi]
    norm_num [optTruthy, hgb, h2, higwA, routeCreates_append, routeCreates]
    cases assocs with
    | none => simp [routeCreates]
    | some al =>
      simp [routeCreates_apply_assocs, routeCreates_append, routeCreates]
      intro a ha
      exact List.filterMap_eq_nil_iff.mp (routeCreates_apply_assocs api i1 al _) a ha
  · simp only [if_neg htag]
    obtain ⟨i2, h2⟩ := hok (s.counter + 1)
      (ApiCall.createTags [i1] (awsTagSpecs (tgs.getD [])))
    simp only [h2]
    obtain ⟨i3, h3⟩ := hok (s.counter + 1 + 1) (ApiCall.createRoute i1 "0.0.0.0/0" g)
    simp only [apply_routes, apply_route, callApi]
    norm_num [optTruthy, hgb, h3, higwA, routeCreates_append, routeCreates]
    cases assocs with
    | none => simp [routeCreates]
    | some al =>
      simp [routeCreates_apply_assocs, routeCreates_append, routeCreates]
      intro a ha
      exact List.filterMap_eq_nil_iff.mp (routeCreates_apply_assocs api i1 al _) a ha

/-- Witness for C6 at the spec's example table `rtLocalPlusIgw` with a
fully successful API and gateway `igw-new`. -/
theorem restore_route_tables_local_igw_witness :
    ApiAllOk happyApi ∧ ("igw-new" : String) ≠ "" ∧
    routeCreates (restore_route_tables happyApi st0 "vpc-new" (some "igw-new")
      [rtLocalPlusIgw]).2 = [("0.0.0.0/0", "igw-new")] :=
  ⟨happyApi_allOk, by decide,
   restore_route_tables_local_igw happyApi happyApi_allOk st0 (some "rtb-1") none none
     "vpc-new" "igw-new" (by decide)⟩

/-! ## Claim C7: rule sanitization -/

theorem clean_ip_ranges_eq_filterMap : ∀ rs : List IpRange,
    clean_ip_ranges rs = rs.filterMap (fun r =>
      r.cidrIp.map (fun c => { cidrIp := c, description := r.description })) := by
  intro rs
  induction rs with
  | nil => rfl
  | cons r rest ih =>
    cases hr : r.cidrIp with
    | none => simp [clean_ip_ranges, hr, ih]
    | some c => simp [clean_ip_ranges, hr, ih]

theorem clean_ipv6_ranges_eq_filterMap : ∀ rs : List Ipv6Range,
    clean_ipv6_ranges rs = rs.filterMap (fun r =>
      r.cidrIpv6.map (fun c => { cidrIpv6 := c, description := r.description })) := by
  intro rs
  induction rs with
  | nil => rfl
  | cons r rest ih =>
    cases hr : r.cidrIpv6 with
    | none => simp [clean_ipv6_ranges, hr, ih]
    | some c => simp [clean_ipv6_ranges, hr, ih]

/-- C7: the sanitization step drops a rule with no protocol before any
authorize call (the loop iteration is a no-op for it, in both directions);
it drops exactly the ranges lacking a `CidrIp`/`CidrIpv6` while each
surviving range carries its optional description; and a malformed range
neither disturbs the other ranges of its rule (the cleaned list is the
cleaned list of the remaining ranges) nor the rule itself: with a
successful API the authorize call is still issued, carrying the surviving
ranges. -/
theorem clean_sg_rule_spec :
    (∀ rule : SgRule, rule.ipProtocol = none → clean_sg_rule rule = none) ∧
    (∀ (api : Ec2Api) (s : St) (grp : String) (rule : SgRule), rule.ipProtocol = none →
       apply_ingress_rule api s grp rule = (s, []) ∧
       apply_egress_rule api s grp rule = (s, [])) ∧
    (∀ (rule : SgRule) (p : String) (rs : List IpRange), rule.ipProtocol = some p →
       rule.ipRanges = some rs → rs ≠ [] →
       ∃ cr, clean_sg_rule rule = some cr ∧ cr.ipProtocol = p ∧
         cr.ipRanges = some (rs.filterMap (fun r =>
           r.cidrIp.map (fun c => { cidrIp := c, description := r.description })))) ∧
    (∀ (rule : SgRule) (p : String) (rs : List Ipv6Range), rule.ipProtocol = some p →
       rule.ipv6Ranges = some rs → rs ≠ [] →
       ∃ cr, clean_sg_rule rule = some cr ∧
         cr.ipv6Ranges = some (rs.filterMap (fun r =>
           r.cidrIpv6.map (fun c => { cidrIpv6 := c, description := r.description })))) ∧
    (∀ (bad : IpRange) (rest : List IpRange), bad.cidrIp = none →
       clean_ip_ranges (bad :: rest) = clean_ip_ranges rest) ∧
    (∀ (api : Ec2Api), ApiAllOk api → ∀ (s : St) (grp p : String)
       (fp tp : Option Int) (bad : IpRange) (rest : List IpRange), bad.cidrIp = none →
       ∃ i, (apply_ingress_rule api s grp
           { ipProtocol := some p, fromPort := fp, toPort := tp,
             ipRanges := some (bad :: rest), ipv6Ranges := none }).2 =
         [Event.log "info" ("Adding ingress rule to security group " ++ grp),
          Event.api (ApiCall.authorizeSecurityGroupIngress grp
            { ipProtocol := p, fromPort := fp, toPort := tp,
              ipRanges := some (clean_ip_ranges rest), ipv6Ranges := none })
            (ApiResult.ok i)]) := by
  refine ⟨?_, ?_, ?_, ?_, ?_, ?_⟩
  · intro rule h
    unfold clean_sg_rule
    rw [h]
  · intro api s grp rule h
    constructor
    · unfold apply_ingress_rule clean_sg_rule
      rw [h]
    · unfold apply_egress_rule clean_sg_rule
      rw [h]
  · intro rule p rs hp hr hne
    refine ⟨{ ipProtocol := p, fromPort := rule.fromPort, toPort := rule.toPort,
              ipRanges := some (clean_ip_ranges rs),
              ipv6Ranges := match rule.ipv6Ranges with
                            | some rs6 => if rs6 = [] then none else some (clean_ipv6_ranges rs6)
                            | none => none }, ?_, rfl, ?_⟩
    · unfold clean_sg_rule
      rw [hp, hr]
      simp [hne]
    · simp [clean_ip_ranges_eq_filterMap]
  · intro rule p rs hp hr hne
    refine ⟨{ ipProtocol := p, fromPort := rule.fromPort, toPort := rule.toPort,
              ipRanges := match rule.ipRanges with
                          | some rs4 => if rs4 = [] then none else some (clean_ip_ranges rs4)
                          | none => none,
              ipv6Ranges := some (clean_ipv6_ranges rs) }, ?_, ?_⟩
    · unfold clean_sg_rule
      rw [hp, hr]
      simp [hne]
    · simp [clean_ipv6_ranges_eq_filterMap]
  · intro bad rest h
    simp [clean_ip_ranges, h]
  · intro api hok s grp p fp tp bad rest hbad
    obtain ⟨i, hi⟩ := hok s.counter (ApiCall.authorizeSecurityGroupIngress grp
      { ipProtocol := p, fromPort := fp, toPort := tp,
        ipRanges := some (clean_ip_ranges rest), ipv6Ranges := none })
    refine ⟨i, ?_⟩
    have hcl : clean_sg_rule
        { ipProtocol := some p, fromPort := fp, toPort := tp,
          ipRanges := some (bad :: rest), ipv6Ranges := none } =
        some { ipProtocol := p, fromPort := fp, toPort := tp,
               ipRanges := some (clean_ip_ranges rest), ipv6Ranges := none } := by
      simp [clean_sg_rule, clean_ip_ranges, hbad]
    unfold apply_ingress_rule
    rw [hcl]
    simp [callApi, hi]

/-- Witness for C7: a protocol-less rule is dropped without a call; a rule
whose ranges are one malformed and one valid range keeps exactly the valid
range together with its description and is still authorized. -/
theorem clean_sg_rule_spec_witness :
    clean_sg_rule
      { ipProtocol := none, fromPort := none, toPort := none,
        ipRanges := some [{ cidrIp := some "10.0.0.0/8", description := none }],
        ipv6Ranges := none } = none ∧
    apply_ingress_rule happyApi st0 "sg-new"
      { ipProtocol := none, fromPort := none, toPort := none,
        ipRanges := some [{ cidrIp := some "10.0.0.0/8", description := none }],
        ipv6Ranges := none } = (st0, []) ∧
    (∃ cr, clean_sg_rule
      { ipProtocol := some "tcp", fromPort := some 80, toPort := some 80,
        ipRanges := some [{ cidrIp := none, description := some "malformed" },
                          { cidrIp := some "0.0.0.0/0", description := some "web" }],
        ipv6Ranges := none } = some cr ∧ cr.ipProtocol = "tcp" ∧
      cr.ipRanges = some (([{ cidrIp := none, description := some "malformed" },
                            { cidrIp := some "0.0.0.0/0", description := some "web" }] :
          List IpRange).filterMap
        (fun r => r.cidrIp.map (fun c => { cidrIp := c, description := r.description })))) ∧
    (∃ i, (apply_ingress_rule happyApi st0 "sg-new"
        { ipProtocol := some "tcp", fromPort := some 80, toPort := some 80,
          ipRanges := some [{ cidrIp := none, description := some "malformed" },
                            { cidrIp := some "0.0.0.0/0", description := some "web" }],
          ipv6Ranges := none }).2 =
      [Event.log "info" "Adding ingress rule to security group sg-new",
       Event.api (ApiCall.authorizeSecurityGroupIngress "sg-new"
         { ipProtocol := "tcp", fromPort := some 80, toPort := some 80,
           ipRanges := some (clean_ip_ranges
             [{ cidrIp := some "0.0.0.0/0", description := some "web" }]),
           ipv6Ranges := none }) (ApiResult.ok i)]) :=
  ⟨clean_sg_rule_spec.1 _ rfl,
   (clean_sg_rule_spec.2.1 happyApi st0 "sg-new" _ rfl).1,
   clean_sg_rule_spec.2.2.1
     { ipProtocol := some "tcp", fromPort := some 80, toPort := some 80,
       ipRanges := some [{ cidrIp := none, description := some "malformed" },
                         { cidrIp := some "0.0.0.0/0", description := some "web" }],
       ipv6Ranges := none } "tcp"
     [{ cidrIp := none, description := some "malformed" },
      { cidrIp := some "0.0.0.0/0", description := some "web" }] rfl rfl (by decide),
   clean_sg_rule_spec.2.2.2.2.2 happyApi happyApi_allOk st0 "sg-new" "tcp"
     (some 80) (some 80) { cidrIp := none, description := some "malformed" }
     [{ cidrIp := some "0.0.0.0/0", description := some "web" }] rfl⟩

/-! ## Claim C9: the default group is never recreated -/

theorem sgCreates_append (a b : List Event) :
    sgCreates (a ++ b) = sgCreates a ++ sgCreates b := by
  simp [sgCreates, List.filterMap_append]

theorem sgCreates_eq_nil_mem {ev : List Event} (h : sgCreates ev = []) :
    ∀ e ∈ ev, (match e with
      | Event.api (ApiCall.createSecurityGroup nm _ _) _ => some (nm : Option String)
      | _ => none) = none :=
  fun e he => List.filterMap_eq_nil_iff.mp h e he

theorem tagCreates_append (a b : List Event) :
    tagCreates (a ++ b) = tagCreates a ++ tagCreates b := by
  simp [tagCreates, List.filterMap_append]

theorem tagCreates_eq_nil_mem {ev : List Event} (h : tagCreates ev = []) :
    ∀ e ∈ ev, (match e with
      | Event.api (ApiCall.createTags rs ts) _ => some ((rs, ts) : List String × List Tag)
      | _ => none) = none :=
  fun e he => List.filterMap_eq_nil_iff.mp h e he

theorem apply_ingress_rule_frame (api : Ec2Api) (s : St) (grp : String) (rule : SgRule) :
    (apply_ingress_rule api s grp rule).1.created = s.created ∧
    sgCreates (apply_ingress_rule api s grp rule).2 = [] ∧
    tagCreates (apply_ingress_rule api s grp rule).2 = [] := by
  unfold apply_ingress_rule
  cases hcl : clean_sg_rule rule with
  | none => exact ⟨rfl, rfl, rfl⟩
  | some cr =>
    cases hapi : api s.counter (ApiCall.authorizeSecurityGroupIngress grp cr) with
    | ok i => simp [callApi, hapi, sgCreates, tagCreates]
    | err m =>
      by_cases hdup : strContains m "InvalidPermission.Duplicate" = true
      · simp [callApi, hapi, hdup, sgCreates, tagCreates]
      · simp [callApi, hapi, hdup, sgCreates, tagCreates]

theorem apply_egress_rule_frame (api : Ec2Api) (s : St) (grp : String) (rule : SgRule) :
    (apply_egress_rule api s grp rule).1.created = s.created ∧
    sgCreates (apply_egress_rule api s grp rule).2 = [] ∧
    tagCreates (apply_egress_rule api s grp rule).2 = [] := by
  unfold apply_egress_rule
  cases hcl : clean_sg_rule rule with
  | none => exact ⟨rfl, rfl, rfl⟩
  | some cr =>
    cases hapi : api s.counter (ApiCall.authorizeSecurityGroupEgress grp cr) with
    | ok i => simp [callApi, hapi, sgCreates, tagCreates]
    | err m =>
      by_cases hdup : strContains m "InvalidPermission.Duplicate" = true
      · simp [callApi, hapi, hdup, sgCreates, tagCreates]
      · simp [callApi, hapi, hdup, sgCreates, tagCreates]

theorem apply_ingress_rules_frame (api : Ec2Api) (grp : String) :
    ∀ (rules : List SgRule) (s : St),
      (apply_ingress_rules api s grp rules).1.created = s.created ∧
      sgCreates (apply_ingress_rules api s grp rules).2 = [] ∧
      tagCreates (apply_ingress_rules api s grp rules).2 = [] := by
  intro rules
  induction rules with
  | nil => intro s; exact ⟨rfl, rfl, rfl⟩
  | cons r rest ih =>
    intro s
    unfold apply_ingress_rules
    rcases h1 : apply_ingress_rule api s grp r with ⟨s1, e1⟩
    rcases h2 : apply_ingress_rules api s1 grp rest with ⟨s2, e2⟩
    have f1 := apply_ingress_rule_frame api s grp r
    rw [h1] at f1
    have f2 := ih s1
    rw [h2] at f2
    have g1 : s1.created = s.created := f1.1
    have g2 : s2.created = s1.created := f2.1
    have c1 : sgCreates e1 = [] := f1.2.1
    have c2 : sgCreates e2 = [] := f2.2.1
    have d1 : tagCreates e1 = [] := f1.2.2
    have d2 : tagCreates e2 = [] := f2.2.2
    simp [h1, h2, sgCreates_append, tagCreates_append, g1, g2, c1, c2, d1, d2]

theorem apply_egress_rules_frame (api : Ec2Api) (grp : String) :
    ∀ (rules : List SgRule) (s : St),
      (apply_egress_rules api s grp rules).1.created = s.created ∧
      sgCreates (apply_egress_rules api s grp rules).2 = [] ∧
      tagCreates (apply_egress_rules api s grp rules).2 = [] := by
  intro rules
  induction rules with
  | nil => intro s; exact ⟨rfl, rfl, rfl⟩
  | cons r rest ih =>
    intro s
    unfold apply_egress_rules
    rcases h1 : apply_egress_rule api s grp r with ⟨s1, e1⟩
    rcases h2 : apply_egress_rules api s1 grp rest with ⟨s2, e2⟩
    have f1 := apply_egress_rule_frame api s grp r
    rw [h1] at f1
    have f2 := ih s1
    rw [h2] at f2
    have g1 : s1.created = s.created := f1.1
    have g2 : s2.created = s1.created := f2.1
    have c1 : sgCreates e1 = [] := f1.2.1
    have c2 : sgCreates e2 = [] := f2.2.1
    have d1 : tagCreates e1 = [] := f1.2.2
    have d2 : tagCreates e2 = [] := f2.2.2
    simp [h1, h2, sgCreates_append, tagCreates_append, g1, g2, c1, c2, d1, d2]

theorem sg_rules_one_frame (api : Ec2Api) (s : St) (sg : SgData) :
    (sg_rules_one api s sg).1.created = s.created ∧
    sgCreates (sg_rules_one api s sg).2 = [] ∧
    tagCreates (sg_rules_one api s sg).2 = [] := by
  unfold sg_rules_one
  by_cases hdef : sg.groupName = some "default"
  · simp [hdef, sgCreates, tagCreates]
  · rw [if_neg hdef]
    cases hl : dictLookup s.created.security_groups sg.groupId with
    | none => exact ⟨rfl, rfl, rfl⟩
    | some nid =>
      cases hperm : sg.ipPermissions with
      | none =>
        cases hegr : sg.ipPermissionsEgress with
        | none => exact ⟨rfl, rfl, rfl⟩
        | some rules =>
          rcases hegl : apply_egress_rules api { s with counter := s.counter + 1 } nid rules
            with ⟨s3, e3⟩
          have f3 := apply_egress_rules_frame api nid rules { s with counter := s.counter + 1 }
          rw [hegl] at f3
          have g3 : s3.created = s.created := f3.1
          refine ⟨by simp [callApi, hegl, g3], ?_, ?_⟩
          · simp [callApi, hegl, sgCreates_append, sgCreates]
            exact sgCreates_eq_nil_mem f3.2.1
          · simp [callApi, hegl, tagCreates_append, tagCreates]
            exact tagCreates_eq_nil_mem f3.2.2
      | some rules =>
        rcases hing : apply_ingress_rules api s nid rules with ⟨s1, e1⟩
        have f1 := apply_ingress_rules_frame api nid rules s
        rw [hing] at f1
        have g1 : s1.created = s.created := f1.1
        cases hegr : sg.ipPermissionsEgress with
        | none =>
          refine ⟨by simp [hing, g1], ?_, ?_⟩
          · simp [hing, sgCreates]
            exact sgCreates_eq_nil_mem f1.2.1
          · simp [hing, tagCreates]
            exact tagCreates_eq_nil_mem f1.2.2
        | some rules2 =>
          rcases hegl : apply_egress_rules api { s1 with counter := s1.counter + 1 } nid rules2
            with ⟨s3, e3⟩
          have f3 := apply_egress_rules_frame api nid rules2 { s1 with counter := s1.counter + 1 }
          rw [hegl] at f3
          have g3 : s3.created = s1.created := f3.1
          refine ⟨?_, ?_, ?_⟩
          · simp only [hing, callApi, hegl]
            rw [g3]
            exact g1
          · simp [hing, callApi, hegl, sgCreates_append, sgCreates]
            refine ⟨sgCreates_eq_nil_mem f1.2.1, sgCreates_eq_nil_mem f3.2.1⟩
          · simp [hing, callApi, hegl, tagCreates_append, tagCreates]
            refine ⟨tagCreates_eq_nil_mem f1.2.2, tagCreates_eq_nil_mem f3.2.2⟩

theorem sg_pass2_frame (api : Ec2Api) : ∀ (sgs : List SgData) (s : St),
    (sg_pass2 api s sgs).1.created = s.created ∧
    sgCreates (sg_pass2 api s sgs).2 = [] ∧
    tagCreates (sg_pass2 api s sgs).2 = [] := by
  intro sgs
  induction sgs with
  | nil => intro s; exact ⟨rfl, rfl, rfl⟩
  | cons sg rest ih =>
    intro s
    unfold sg_pass2
    rcases h1 : sg_rules_one api s sg with ⟨s1, e1⟩
    rcases h2 : sg_pass2 api s1 rest with ⟨s2, e2⟩
    have f1 := sg_rules_one_frame api s sg
    rw [h1] at f1
    have f2 := ih s1
    rw [h2] at f2
    have g1 : s1.created = s.created := f1.1
    have g2 : s2.created = s1.created := f2.1
    have c1 : sgCreates e1 = [] := f1.2.1
    have c2 : sgCreates e2 = [] := f2.2.1
    have d1 : tagCreates e1 = [] := f1.2.2
    have d2 : tagCreates e2 = [] := f2.2.2
    simp [h1, h2, sgCreates_append, tagCreates_append, g1, g2, c1, c2, d1, d2]

theorem sg_create_one_spec (api : Ec2Api) (s : St) (v : String) (sg : SgData) :
    (sg.groupName = some "default" → sg_create_one api s v sg = (s, [])) ∧
    (sg.groupName ≠ some "default" →
      sgCreates (sg_create_one api s v sg).2 = [sg.groupName] ∧
      ((sg_create_one api s v sg).1.created = s.created ∨
       ∃ nv, (sg_create_one api s v sg).1.created =
         { s.created with
           security_groups := dictInsert s.created.security_groups sg.groupId nv })) := by
  constructor
  · intro h
    unfold sg_create_one
    rw [if_pos h]
  · intro h
    unfold sg_create_one
    rw [if_neg h]
    cases hapi : api s.counter (ApiCall.createSecurityGroup sg.groupName
        (sg.description.getD "Restored security group") v) with
    | err m =>
      simp [callApi, hapi, sgCreates]
    | ok nid =>
      by_cases htag : sg.tags.isNone = true ∨ awsTagSpecs (sg.tags.getD []) = []
      · simp only [callApi, hapi, if_pos htag]
        refine ⟨by simp [sgCreates], Or.inr ⟨nid, rfl⟩⟩
      · cases htag2 : api (s.counter + 1) (ApiCall.createTags [nid]
            (awsTagSpecs (sg.tags.getD []))) with
        | err m2 =>
          simp only [callApi, hapi, if_neg htag, htag2]
          exact ⟨by simp [sgCreates], Or.inl (by first | rfl | trivial)⟩
        | ok i2 =>
          simp only [callApi, hapi, if_neg htag, htag2]
          exact ⟨by simp [sgCreates], Or.inr ⟨nid, rfl⟩⟩

theorem sg_pass1_spec (api : Ec2Api) (v : String) : ∀ (sgs : List SgData) (s : St),
    sgCreates (sg_pass1 api s v sgs).2 =
      (sgs.filter (fun sg => sg.groupName != some "default")).map (fun sg => sg.groupName) ∧
    (∀ k nv, (k, nv) ∈ (sg_pass1 api s v sgs).1.created.security_groups →
      (k, nv) ∈ s.created.security_groups ∨
      ∃ sg ∈ sgs, sg.groupId = k ∧ sg.groupName ≠ some "default") := by
  intro sgs
  induction sgs with
  | nil =>
    intro s
    exact ⟨rfl, fun k nv h => Or.inl h⟩
  | cons sg rest ih =>
    intro s
    unfold sg_pass1
    rcases h1 : sg_create_one api s v sg with ⟨s1, e1⟩
    rcases h2 : sg_pass1 api s1 v rest with ⟨s2, e2⟩
    have spec := sg_create_one_spec api s v sg
    have f2 := ih s1
    rw [h2] at f2
    have c2 : sgCreates e2 =
        (rest.filter (fun sg2 => sg2.groupName != some "default")).map
          (fun sg2 => sg2.groupName) := f2.1
    simp only [h1, h2]
    by_cases hdef : sg.groupName = some "default"
    · have hco := spec.1 hdef
      rw [h1] at hco
      injection hco with hs1 he1
      subst hs1
      subst he1
      constructor
      · rw [sgCreates_append, c2]
        simp [hdef, sgCreates]
      · intro k nv hm
        have hm2 : (k, nv) ∈ s2.created.security_groups := hm
        rcases f2.2 k nv hm2 with hin | ⟨sg2, hsg2, hk, hnm⟩
        · exact Or.inl hin
        · exact Or.inr ⟨sg2, List.mem_cons_of_mem _ hsg2, hk, hnm⟩
    · have hspec := spec.2 hdef
      rw [h1] at hspec
      have c1 : sgCreates e1 = [sg.groupName] := hspec.1
      constructor
      · rw [sgCreates_append, c1, c2]
        simp [List.filter_cons, bne_iff_ne, hdef]
      · intro k nv hm
        have hm2 : (k, nv) ∈ s2.created.security_groups := hm
        rcases f2.2 k nv hm2 with hin | ⟨sg2, hsg2, hk, hnm⟩
        · rcases hspec.2 with hsame | ⟨nv2, hins⟩
          · have hsame2 : s1.created = s.created := hsame
            rw [hsame2] at hin
            exact Or.inl hin
          · have hins2 : s1.created = { s.created with
              security_groups := dictInsert s.created.security_groups sg.groupId nv2 } := hins
            rw [hins2] at hin
            rcases mem_of_mem_dictInsert _ _ _ _ hin with hold | hnew
            · exact Or.inl hold
            · rw [Prod.mk.injEq] at hnew
              exact Or.inr ⟨sg, List.mem_cons_self _ _, hnew.1.symm, hdef⟩
        · exact Or.inr ⟨sg2, List.mem_cons_of_mem _ hsg2, hk, hnm⟩

/-- C9: restoring security groups never issues a create-security-group
call for a group named `default`, in either pass: the create calls of the
whole stage are exactly one per non-default captured group (pass 2 issues
none), and only non-default groups' original ids enter the id mapping. -/
theorem restore_security_groups_default_never_created (api : Ec2Api) (s : St)
    (newVpcId : String) (sgs : List SgData) :
    sgCreates (restore_security_groups api s newVpcId sgs).2 =
      (sgs.filter (fun sg => sg.groupName != some "default")).map (fun sg => sg.groupName) ∧
    some "default" ∉ sgCreates (restore_security_groups api s newVpcId sgs).2 ∧
    (∀ k nv, (k, nv) ∈ (restore_security_groups api s newVpcId sgs).1.created.security_groups →
      (k, nv) ∈ s.created.security_groups ∨
      ∃ sg ∈ sgs, sg.groupId = k ∧ sg.groupName ≠ some "default") := by
  unfold restore_security_groups
  rcases h1 : sg_pass1 api s newVpcId sgs with ⟨s1, e1⟩
  rcases h2 : sg_pass2 api s1 sgs with ⟨s2, e2⟩
  have f1 := sg_pass1_spec api newVpcId sgs s
  rw [h1] at f1
  have f2 := sg_pass2_frame api sgs s1
  rw [h2] at f2
  have c1 : sgCreates e1 =
      (sgs.filter (fun sg => sg.groupName != some "default")).map (fun sg => sg.groupName) :=
    f1.1
  have c2 : sgCreates e2 = [] := f2.2.1
  have hcr : sgCreates (e1 ++ e2) =
      (sgs.filter (fun sg => sg.groupName != some "default")).map (fun sg => sg.groupName) := by
    simp [sgCreates_append, c1, c2]
  simp only [h1, h2]
  refine ⟨hcr, ?_, ?_⟩
  · intro hmem
    rw [hcr] at hmem
    rcases List.mem_map.mp hmem with ⟨sg, hsg, hnm⟩
    have := List.mem_filter.mp hsg
    rw [hnm] at this
    simp at this
  · intro k nv hm
    have g2 : s2.created = s1.created := f2.1
    have hm1 : (k, nv) ∈ s1.created.security_groups := by
      rw [← g2]
      exact hm
    exact f1.2 k nv hm1

/-- Witness for C9: with one captured `default` group and one `web` group,
the stage issues exactly one create call (for `web`) and none for
`default`. -/
theorem restore_security_groups_default_never_created_witness :
    sgCreates (restore_security_groups happyApi st0 "vpc-new" sgDefaultAndWeb).2 =
      (sgDefaultAndWeb.filter (fun sg => sg.groupName != some "default")).map
        (fun sg => sg.groupName) ∧
    some "default" ∉ sgCreates (restore_security_groups happyApi st0 "vpc-new" sgDefaultAndWeb).2 ∧
    sgCreates (restore_security_groups happyApi st0 "vpc-new" sgDefaultAndWeb).2 = [some "web"] :=
  ⟨(restore_security_groups_default_never_created happyApi st0 "vpc-new" sgDefaultAndWeb).1,
   (restore_security_groups_default_never_created happyApi st0 "vpc-new" sgDefaultAndWeb).2.1,
   by decide⟩

/-! ## Security-group stage: tag payloads and state monotonicity -/

theorem sg_create_one_tags (api : Ec2Api) (s : St) (v : String) (sg : SgData) :
    ∀ pr ∈ tagCreates (sg_create_one api s v sg).2, pr.2 = awsTagSpecs (sg.tags.getD []) := by
  unfold sg_create_one
  by_cases hdef : sg.groupName = some "default"
  · simp [hdef, tagCreates]
  · rw [if_neg hdef]
    cases hapi : api s.counter (ApiCall.createSecurityGroup sg.groupName
        (sg.description.getD "Restored security group") v) with
    | err m => simp [callApi, hapi, tagCreates]
    | ok nid =>
      by_cases htag : sg.tags.isNone = true ∨ awsTagSpecs (sg.tags.getD []) = []
      · have htagp : sg.tags = none ∨ awsTagSpecs (sg.tags.getD []) = [] := by
          simpa [Option.isNone_iff_eq_none] using htag
        simp [callApi, hapi, htagp, tagCreates]
      · have htagn : ¬(sg.tags = none ∨ awsTagSpecs (sg.tags.getD []) = []) := by
          simpa [Option.isNone_iff_eq_none] using htag
        cases htag2 : api (s.counter + 1) (ApiCall.createTags [nid]
            (awsTagSpecs (sg.tags.getD []))) with
        | err m2 => simp [callApi, hapi, htagn, htag2, tagCreates]
        | ok i2 => simp [callApi, hapi, htagn, htag2, tagCreates]

theorem sg_pass1_tags (api : Ec2Api) (v : String) : ∀ (sgs : List SgData) (s : St),
    ∀ pr ∈ tagCreates (sg_pass1 api s v sgs).2,
      ∃ sg ∈ sgs, pr.2 = awsTagSpecs (sg.tags.getD []) := by
  intro sgs
  induction sgs with
  | nil => intro s pr hpr; simp [sg_pass1, tagCreates] at hpr
  | cons sg rest ih =>
    intro s pr hpr
    unfold sg_pass1 at hpr
    rcases h1 : sg_create_one api s v sg with ⟨s1, e1⟩
    rcases h2 : sg_pass1 api s1 v rest with ⟨s2, e2⟩
    simp only [h1, h2] at hpr
    simp only [tagCreates_append] at hpr
    rcases List.mem_append.mp hpr with hin | hin
    · have := sg_create_one_tags api s v sg pr (by rw [h1]; exact hin)
      exact ⟨sg, List.mem_cons_self _ _, this⟩
    · obtain ⟨sg2, hsg2, hts⟩ := ih s1 pr (by rw [h2]; exact hin)
      exact ⟨sg2, List.mem_cons_of_mem _ hsg2, hts⟩

theorem sg_pass1_mono (api : Ec2Api) (v : String) : ∀ (sgs : List SgData) (s : St),
    (∀ k, (dictLookup s.created.security_groups k).isSome = true →
      (dictLookup (sg_pass1 api s v sgs).1.created.security_groups k).isSome = true) ∧
    (sg_pass1 api s v sgs).1.created.subnets = s.created.subnets ∧
    (sg_pass1 api s v sgs).1.created.route_tables = s.created.route_tables ∧
    (sg_pass1 api s v sgs).1.created.internet_gateways = s.created.internet_gateways ∧
    (sg_pass1 api s v sgs).1.created.vpc = s.created.vpc := by
  intro sgs
  induction sgs with
  | nil => intro s; exact ⟨fun k h => h, rfl, rfl, rfl, rfl⟩
  | cons sg rest ih =>
    intro s
    unfold sg_pass1
    rcases h1 : sg_create_one api s v sg with ⟨s1, e1⟩
    rcases h2 : sg_pass1 api s1 v rest with ⟨s2, e2⟩
    have f2 := ih s1
    rw [h2] at f2
    have hshape : s1.created = s.created ∨
        ∃ nv, s1.created = { s.created with
          security_groups := dictInsert s.created.security_groups sg.groupId nv } := by
      by_cases hdef : sg.groupName = some "default"
      · have hco := (sg_create_one_spec api s v sg).1 hdef
        rw [h1] at hco
        injection hco with hs1 he1
        exact Or.inl (by rw [hs1])
      · have hco := ((sg_create_one_spec api s v sg).2 hdef).2
        rw [h1] at hco
        exact hco
    simp only [h1, h2]
    rcases hshape with hsame | ⟨nv, hins⟩
    · rw [hsame] at f2
      exact f2
    · rw [hins] at f2
      refine ⟨?_, f2.2.1, f2.2.2.1, f2.2.2.2.1, f2.2.2.2.2⟩
      intro k hk
      exact f2.1 k (dictLookup_isSome_insert _ _ _ _ hk)

theorem restore_security_groups_tags (api : Ec2Api) (s : St) (v : String)
    (sgs : List SgData) :
    ∀ pr ∈ tagCreates (restore_security_groups api s v sgs).2,
      ∃ sg ∈ sgs, pr.2 = awsTagSpecs (sg.tags.getD []) := by
  intro pr hpr
  unfold restore_security_groups at hpr
  rcases h1 : sg_pass1 api s v sgs with ⟨s1, e1⟩
  rcases h2 : sg_pass2 api s1 sgs with ⟨s2, e2⟩
  simp only [h1, h2] at hpr
  simp only [tagCreates_append] at hpr
  rcases List.mem_append.mp hpr with hin | hin
  · exact sg_pass1_tags api v sgs s pr (by rw [h1]; exact hin)
  · have f2 := sg_pass2_frame api sgs s1
    rw [h2] at f2
    have d2 : tagCreates e2 = [] := f2.2.2
    rw [d2] at hin
    simp at hin

theorem restore_security_groups_mono (api : Ec2Api) (s : St) (v : String)
    (sgs : List SgData) :
    (∀ k, (dictLookup s.created.security_groups k).isSome = true →
      (dictLookup (restore_security_groups api s v sgs).1.created.security_groups k).isSome
        = true) ∧
    (restore_security_groups api s v sgs).1.created.subnets = s.created.subnets ∧
    (restore_security_groups api s v sgs).1.created.route_tables = s.created.route_tables ∧
    (restore_security_groups api s v sgs).1.created.internet_gateways =
      s.created.internet_gateways ∧
    (restore_security_groups api s v sgs).1.created.vpc = s.created.vpc := by
  unfold restore_security_groups
  rcases h1 : sg_pass1 api s v sgs with ⟨s1, e1⟩
  rcases h2 : sg_pass2 api s1 sgs with ⟨s2, e2⟩
  have f1 := sg_pass1_mono api v sgs s
  rw [h1] at f1
  have f2 := sg_pass2_frame api sgs s1
  rw [h2] at f2
  have g2 : s2.created = s1.created := f2.1
  simp only [h1, h2]
  rw [g2]
  exact f1

/-! ## `restore_vpc`: tags, DNS attributes, created state -/

/-- Combined behaviour of `restore_vpc`: every create-tags call carries the
CloudFormation-only filtered tag list; DNS modify calls only ever enable
(never disable) an attribute; on failure the created table is untouched;
on success only the `vpc` slot is set, the new id is the one minted by the
create call, the final DNS-support attribute is enabled regardless of the
captured flag, and the final DNS-hostnames attribute equals the captured
flag (default disabled). -/
theorem restore_vpc_spec (api : Ec2Api) (s : St) (v : VpcData) :
    (∀ pr ∈ tagCreates (restore_vpc api s v).2.2, pr.2 = vpcTagSpecs (v.tags.getD [])) ∧
    (∀ vid b r2, Event.api (ApiCall.modifyVpcAttrDnsSupport vid b) r2 ∈
        (restore_vpc api s v).2.2 → b = true) ∧
    (∀ vid b r2, Event.api (ApiCall.modifyVpcAttrDnsHostnames vid b) r2 ∈
        (restore_vpc api s v).2.2 → b = true) ∧
    ((restore_vpc api s v).1 = none → (restore_vpc api s v).2.1.created = s.created) ∧
    (∀ id, (restore_vpc api s v).1 = some id →
      (restore_vpc api s v).2.1.created = { s.created with vpc := some id } ∧
      finalDnsSupport (restore_vpc api s v).2.2 id = true ∧
      finalDnsHostnames (restore_vpc api s v).2.2 id = v.enableDnsHostnames.getD false ∧
      Event.api (ApiCall.createVpc (v.cidrBlock.getD "")) (ApiResult.ok id) ∈
        (restore_vpc api s v).2.2) := by
  cases hcb : v.cidrBlock with
  | none => simp [restore_vpc, callApi, tagCreates, finalDnsSupport, finalDnsHostnames, *]
  | some cidr =>
    by_cases hcd : cidr = ""
    · simp [restore_vpc, callApi, tagCreates, finalDnsSupport, finalDnsHostnames, *]
    · cases h1 : api s.counter (ApiCall.createVpc cidr) with
      | err m => simp [restore_vpc, callApi, tagCreates, finalDnsSupport, finalDnsHostnames, *]
      | ok nv =>
        by_cases htag : v.tags.getD [] = [] ∨ vpcTagSpecs (v.tags.getD []) = []
        · by_cases hsup : v.enableDnsSupport.getD true = true
          · cases h3 : api (s.counter + 1 + 1) (ApiCall.modifyVpcAttrDnsSupport nv true) with
            | err m3 => simp [restore_vpc, callApi, tagCreates, finalDnsSupport, finalDnsHostnames, *]
            | ok i3 =>
              by_cases hh : v.enableDnsHostnames.getD false = true
              · cases h4 : api (s.counter + 1 + 1 + 1)
                    (ApiCall.modifyVpcAttrDnsHostnames nv true) with
                | err m4 => simp [restore_vpc, callApi, tagCreates, finalDnsSupport, finalDnsHostnames, *]
                | ok i4 => simp [restore_vpc, callApi, tagCreates, finalDnsSupport, finalDnsHostnames, *]
              · simp [restore_vpc, callApi, tagCreates, finalDnsSupport, finalDnsHostnames, *]
          · by_cases hh : v.enableDnsHostnames.getD false = true
            · cases h4 : api (s.counter + 1 + 1) (ApiCall.modifyVpcAttrDnsHostnames nv true) with
              | err m4 => simp [restore_vpc, callApi, tagCreates, finalDnsSupport, finalDnsHostnames, *]
              | ok i4 => simp [restore_vpc, callApi, tagCreates, finalDnsSupport, finalDnsHostnames, *]
            · simp [restore_vpc, callApi, tagCreates, finalDnsSupport, finalDnsHostnames, *]
        · cases h2 : api (s.counter + 1 + 1)
              (ApiCall.createTags [nv] (vpcTagSpecs (v.tags.getD []))) with
          | err m2 => simp [restore_vpc, callApi, tagCreates, finalDnsSupport, finalDnsHostnames, *]
          | ok i2 =>
            by_cases hsup : v.enableDnsSupport.getD true = true
            · cases h3 : api (s.counter + 1 + 1 + 1)
                  (ApiCall.modifyVpcAttrDnsSupport nv true) with
              | err m3 => simp [restore_vpc, callApi, tagCreates, finalDnsSupport, finalDnsHostnames, *]
              | ok i3 =>
                by_cases hh : v.enableDnsHostnames.getD false = true
                · cases h4 : api (s.counter + 1 + 1 + 1 + 1)
                      (ApiCall.modifyVpcAttrDnsHostnames nv true) with
                  | err m4 => simp [restore_vpc, callApi, tagCreates, finalDnsSupport, finalDnsHostnames, *]
                  | ok i4 => simp [restore_vpc, callApi, tagCreates, finalDnsSupport, finalDnsHostnames, *]
                · simp [restore_vpc, callApi, tagCreates, finalDnsSupport, finalDnsHostnames, *]
            · by_cases hh : v.enableDnsHostnames.getD false = true
              · cases h4 : api (s.counter + 1 + 1 + 1)
                    (ApiCall.modifyVpcAttrDnsHostnames nv true) with
                | err m4 => simp [restore_vpc, callApi, tagCreates, finalDnsSupport, finalDnsHostnames, *]
                | ok i4 => simp [restore_vpc, callApi, tagCreates, finalDnsSupport, finalDnsHostnames, *]
              · simp [restore_vpc, callApi, tagCreates, finalDnsSupport, finalDnsHostnames, *]

/-! ## `restore_internet_gateway`: tags and created state -/

/-- Behaviour of `restore_internet_gateway` on present gateway data: tag
calls carry the `aws:`-filtered tags, a failed restore leaves the created
table untouched, and a successful one records the entry under the NEW
gateway id, keyed to the captured gateway data (not original → new). -/
theorem restore_internet_gateway_spec (api : Ec2Api) (s : St) (igw : IgwData)
    (vpcid : String) :
    (∀ pr ∈ tagCreates (restore_internet_gateway api s (some igw) vpcid).2.2,
      pr.2 = awsTagSpecs (igw.tags.getD [])) ∧
    ((restore_internet_gateway api s (some igw) vpcid).1 = none →
      (restore_internet_gateway api s (some igw) vpcid).2.1.created = s.created) ∧
    (∀ id, (restore_internet_gateway api s (some igw) vpcid).1 = some id →
      (restore_internet_gateway api s (some igw) vpcid).2.1.created =
        { s.created with
          internet_gateways := dictInsert s.created.internet_gateways id igw } ∧
      Event.api ApiCall.createInternetGateway (ApiResult.ok id) ∈
        (restore_internet_gateway api s (some igw) vpcid).2.2) := by
  cases h1 : api s.counter ApiCall.createInternetGateway with
  | err m => simp [restore_internet_gateway, callApi, tagCreates, *]
  | ok nid =>
    by_cases htag : igw.tags = none ∨ awsTagSpecs (igw.tags.getD []) = []
    · cases h3 : api (s.counter + 1) (ApiCall.attachInternetGateway nid vpcid) with
      | err m3 => simp [restore_internet_gateway, callApi, tagCreates, *]
      | ok i3 => simp [restore_internet_gateway, callApi, tagCreates, *]
    · cases h2 : api (s.counter + 1) (ApiCall.createTags [nid]
          (awsTagSpecs (igw.tags.getD []))) with
      | err m2 => simp [restore_internet_gateway, callApi, tagCreates, *]
      | ok i2 =>
        cases h3 : api (s.counter + 1 + 1) (ApiCall.attachInternetGateway nid vpcid) with
        | err m3 => simp [restore_internet_gateway, callApi, tagCreates, *]
        | ok i3 => simp [restore_internet_gateway, callApi, tagCreates, *]

/-! ## `restore_subnets`: tags, mapping provenance, monotonicity -/

theorem restore_one_subnet_tags (api : Ec2Api) (s : St) (vpcid : String)
    (sd : SubnetData) :
    ∀ pr ∈ tagCreates (restore_one_subnet api s vpcid sd).2,
      pr.2 = awsTagSpecs (sd.tags.getD []) := by
  cases hcb : sd.cidrBlock with
  | none => simp [restore_one_subnet, tagCreates, *]
  | some cidr =>
    by_cases hcd : cidr = ""
    · simp [restore_one_subnet, tagCreates, *]
    · cases h1 : api s.counter (ApiCall.createSubnet vpcid cidr
          (if optTruthy sd.availabilityZone then sd.availabilityZone else none)) with
      | err m => simp [restore_one_subnet, callApi, tagCreates, *]
      | ok nid =>
        by_cases htag : sd.tags = none ∨ awsTagSpecs (sd.tags.getD []) = []
        · by_cases hm : sd.mapPublicIpOnLaunch.getD false = true
          · cases h3 : api (s.counter + 1) (ApiCall.modifySubnetMapPublicIp nid true) with
            | err m3 => simp [restore_one_subnet, callApi, tagCreates, *]
            | ok i3 => simp [restore_one_subnet, callApi, tagCreates, *]
          · simp [restore_one_subnet, callApi, tagCreates, *]
        · cases h2 : api (s.counter + 1) (ApiCall.createTags [nid]
              (awsTagSpecs (sd.tags.getD []))) with
          | err m2 => simp [restore_one_subnet, callApi, tagCreates, *]
          | ok i2 =>
            by_cases hm : sd.mapPublicIpOnLaunch.getD false = true
            · cases h3 : api (s.counter + 1 + 1)
                  (ApiCall.modifySubnetMapPublicIp nid true) with
              | err m3 => simp [restore_one_subnet, callApi, tagCreates, *]
              | ok i3 => simp [restore_one_subnet, callApi, tagCreates, *]
            · simp [restore_one_subnet, callApi, tagCreates, *]

theorem restore_one_subnet_created (api : Ec2Api) (s : St) (vpcid : String)
    (sd : SubnetData) :
    (restore_one_subnet api s vpcid sd).1.created = s.created ∨
    ∃ nid, (restore_one_subnet api s vpcid sd).1.created =
        { s.created with subnets := dictInsert s.created.subnets sd.subnetId nid } ∧
      ∃ az, Event.api (ApiCall.createSubnet vpcid (sd.cidrBlock.getD "") az)
        (ApiResult.ok nid) ∈ (restore_one_subnet api s vpcid sd).2 := by
  cases hcb : sd.cidrBlock with
  | none => exact Or.inl (by simp [restore_one_subnet, *])
  | some cidr =>
    by_cases hcd : cidr = ""
    · exact Or.inl (by simp [restore_one_subnet, *])
    · cases h1 : api s.counter (ApiCall.createSubnet vpcid cidr
          (if optTruthy sd.availabilityZone then sd.availabilityZone else none)) with
      | err m => exact Or.inl (by simp [restore_one_subnet, callApi, *])
      | ok nid =>
        by_cases htag : sd.tags = none ∨ awsTagSpecs (sd.tags.getD []) = []
        · by_cases hm : sd.mapPublicIpOnLaunch.getD false = true
          · cases h3 : api (s.counter + 1) (ApiCall.modifySubnetMapPublicIp nid true) with
            | err m3 => exact Or.inl (by simp [restore_one_subnet, callApi, *])
            | ok i3 =>
              exact Or.inr ⟨nid, by simp [restore_one_subnet, callApi, *],
                (if optTruthy sd.availabilityZone then sd.availabilityZone else none),
                by simp [restore_one_subnet, callApi, *]⟩
          · exact Or.inr ⟨nid, by simp [restore_one_subnet, callApi, *],
              (if optTruthy sd.availabilityZone then sd.availabilityZone else none),
              by simp [restore_one_subnet, callApi, *]⟩
        · cases h2 : api (s.counter + 1) (ApiCall.createTags [nid]
              (awsTagSpecs (sd.tags.getD []))) with
          | err m2 => exact Or.inl (by simp [restore_one_subnet, callApi, *])
          | ok i2 =>
            by_cases hm : sd.mapPublicIpOnLaunch.getD false = true
            · cases h3 : api (s.counter + 1 + 1)
                  (ApiCall.modifySubnetMapPublicIp nid true) with
              | err m3 => exact Or.inl (by simp [restore_one_subnet, callApi, *])
              | ok i3 =>
                exact Or.inr ⟨nid, by simp [restore_one_subnet, callApi, *],
                  (if optTruthy sd.availabilityZone then sd.availabilityZone else none),
                  by simp [restore_one_subnet, callApi, *]⟩
            · exact Or.inr ⟨nid, by simp [restore_one_subnet, callApi, *],
                (if optTruthy sd.availabilityZone then sd.availabilityZone else none),
                by simp [restore_one_subnet, callApi, *]⟩

theorem restore_subnets_spec (api : Ec2Api) (vpcid : String) :
    ∀ (lst : List SubnetData) (s : St),
      (∀ pr ∈ tagCreates (restore_subnets api s vpcid lst).2,
        ∃ sd ∈ lst, pr.2 = awsTagSpecs (sd.tags.getD [])) ∧
      (∀ k nv, (k, nv) ∈ (restore_subnets api s vpcid lst).1.created.subnets →
        (k, nv) ∈ s.created.subnets ∨
        ∃ sd ∈ lst, sd.subnetId = k ∧
          ∃ az, Event.api (ApiCall.createSubnet vpcid (sd.cidrBlock.getD "") az)
            (ApiResult.ok nv) ∈ (restore_subnets api s vpcid lst).2) ∧
      (∀ k, (dictLookup s.created.subnets k).isSome = true →
        (dictLookup (restore_subnets api s vpcid lst).1.created.subnets k).isSome = true) ∧
      (restore_subnets api s vpcid lst).1.created.route_tables = s.created.route_tables ∧
      (restore_subnets api s vpcid lst).1.created.security_groups =
        s.created.security_groups ∧
      (restore_subnets api s vpcid lst).1.created.internet_gateways =
        s.created.internet_gateways ∧
      (restore_subnets api s vpcid lst).1.created.vpc = s.created.vpc := by
  intro lst
  induction lst with
  | nil =>
    intro s
    refine ⟨?_, ?_, ?_, rfl, rfl, rfl, rfl⟩
    · intro pr hpr
      simp [restore_subnets, tagCreates] at hpr
    · intro k nv h
      exact Or.inl h
    · intro k h
      exact h
  | cons sd rest ih =>
    intro s
    rcases h1 : restore_one_subnet api s vpcid sd with ⟨s1, e1⟩
    rcases h2 : restore_subnets api s1 vpcid rest with ⟨s2, e2⟩
    have hshape := restore_one_subnet_created api s vpcid sd
    rw [h1] at hshape
    have htags1 := restore_one_subnet_tags api s vpcid sd
    rw [h1] at htags1
    have f2 := ih s1
    rw [h2] at f2
    obtain ⟨t2, p2, m2, r2a, r2b, r2c, r2d⟩ := f2
    have hsub1 : s1.created.subnets = s.created.subnets ∨
        ∃ nid, s1.created.subnets = dictInsert s.created.subnets sd.subnetId nid := by
      rcases hshape with hsame | ⟨nid, hins, _⟩
      · exact Or.inl (by rw [hsame])
      · exact Or.inr ⟨nid, by rw [hins]⟩
    have hflds : s1.created.route_tables = s.created.route_tables ∧
        s1.created.security_groups = s.created.security_groups ∧
        s1.created.internet_gateways = s.created.internet_gateways ∧
        s1.created.vpc = s.created.vpc := by
      rcases hshape with hsame | ⟨nid, hins, _⟩
      · rw [hsame]
        exact ⟨rfl, rfl, rfl, rfl⟩
      · rw [hins]
        exact ⟨rfl, rfl, rfl, rfl⟩
    simp only [restore_subnets, h1, h2]
    refine ⟨?_, ?_, ?_, ?_, ?_, ?_, ?_⟩
    · intro pr hpr
      rcases List.mem_append.mp (by simpa [tagCreates_append] using hpr) with hin | hin
      · exact ⟨sd, List.mem_cons_self _ _, htags1 pr hin⟩
      · obtain ⟨sd2, hsd2, hts⟩ := t2 pr hin
        exact ⟨sd2, List.mem_cons_of_mem _ hsd2, hts⟩
    · intro k nv hm
      rcases p2 k nv hm with hin1 | ⟨sd2, hsd2, hk, az2, hev⟩
      · rcases hshape with hsame | ⟨nid, hins, az1, hev1⟩
        · rw [hsame] at hin1
          exact Or.inl hin1
        · have hl1 : s1.created.subnets = dictInsert s.created.subnets sd.subnetId nid := by
            rw [hins]
          rw [hl1] at hin1
          rcases mem_of_mem_dictInsert _ _ _ _ hin1 with hold | hnew
          · exact Or.inl hold
          · rw [Prod.mk.injEq] at hnew
            refine Or.inr ⟨sd, List.mem_cons_self _ _, hnew.1.symm, az1, ?_⟩
            rw [hnew.2]
            exact List.mem_append_left _ hev1
      · exact Or.inr ⟨sd2, List.mem_cons_of_mem _ hsd2, hk, az2,
          List.mem_append_right _ hev⟩
    · intro k hk
      apply m2
      rcases hsub1 with hs1 | ⟨nid, hs1⟩
      · rw [hs1]
        exact hk
      · rw [hs1]
        exact dictLookup_isSome_insert _ _ _ _ hk
    · have g2 : s2.created.route_tables = s1.created.route_tables := r2a
      exact g2.trans hflds.1
    · have g2 : s2.created.security_groups = s1.created.security_groups := r2b
      exact g2.trans hflds.2.1
    · have g2 : s2.created.internet_gateways = s1.created.internet_gateways := r2c
      exact g2.trans hflds.2.2.1
    · have g2 : s2.created.vpc = s1.created.vpc := r2d
      exact g2.trans hflds.2.2.2

/-! ## `restore_route_tables`: tags, mapping provenance, monotonicity -/

theorem apply_route_frame (api : Ec2Api) (s : St) (rtid : String) (igwId : Option String)
    (route : RouteData) :
    (apply_route api s rtid igwId route).1.created = s.created ∧
    tagCreates (apply_route api s rtid igwId route).2 = [] := by
  unfold apply_route
  by_cases hloc : route.gatewayId = some "local"
  · simp [hloc, tagCreates]
  · rw [if_neg hloc]
    cases hdest : route.destinationCidrBlock with
    | none => exact ⟨rfl, rfl⟩
    | some dest =>
      by_cases hcond : (optTruthy route.gatewayId &&
          strContains (route.gatewayId.getD "") "igw-" && optTruthy igwId) = true
      · by_cases hd : dest = ""
        · simp [hd, tagCreates]
        · cases hapi : api s.counter (ApiCall.createRoute rtid dest (igwId.getD "")) with
          | ok i => simp [hd, hcond, callApi, hapi, tagCreates]
          | err m => simp [hd, hcond, callApi, hapi, tagCreates]
      · by_cases hd : dest = ""
        · simp [hd, tagCreates]
        · simp [hd, hcond, tagCreates]

theorem apply_routes_frame (api : Ec2Api) (rtid : String) (igwId : Option String) :
    ∀ (rl : List RouteData) (s : St),
      (apply_routes api s rtid igwId rl).1.created = s.created ∧
      tagCreates (apply_routes api s rtid igwId rl).2 = [] := by
  intro rl
  induction rl with
  | nil => intro s; exact ⟨rfl, rfl⟩
  | cons r rest ih =>
    intro s
    unfold apply_routes
    rcases h1 : apply_route api s rtid igwId r with ⟨s1, e1⟩
    rcases h2 : apply_routes api s1 rtid igwId rest with ⟨s2, e2⟩
    have f1 := apply_route_frame api s rtid igwId r
    rw [h1] at f1
    have f2 := ih s1
    rw [h2] at f2
    have g1 : s1.created = s.created := f1.1
    have g2 : s2.created = s1.created := f2.1
    have d1 : tagCreates e1 = [] := f1.2
    have d2 : tagCreates e2 = [] := f2.2
    simp [h1, h2, tagCreates_append, g1, g2, d1, d2]

theorem apply_assoc_frame (api : Ec2Api) (s : St) (rtid : String) (a : AssocData) :
    (apply_assoc api s rtid a).1.created = s.created ∧
    tagCreates (apply_assoc api s rtid a).2 = [] := by
  unfold apply_assoc
  cases hmb : a.main.getD false
  · cases hsub : a.subnetId with
    | none => simp [hmb, tagCreates]
    | some sid =>
      by_cases hsid : sid = ""
      · simp [hmb, hsid, tagCreates]
      · cases hl : dictLookup s.created.subnets (some sid) with
        | none => simp [hmb, hsid, hl, tagCreates]
        | some nsid =>
          cases hapi : api s.counter (ApiCall.associateRouteTable rtid nsid) with
          | ok i => simp [hmb, hsid, hl, callApi, hapi, tagCreates]
          | err m => simp [hmb, hsid, hl, callApi, hapi, tagCreates]
  · simp [hmb, tagCreates]

theorem apply_assocs_frame (api : Ec2Api) (rtid : String) :
    ∀ (al : List AssocData) (s : St),
      (apply_assocs api s rtid al).1.created = s.created ∧
      tagCreates (apply_assocs api s rtid al).2 = [] := by
  intro al
  induction al with
  | nil => intro s; exact ⟨rfl, rfl⟩
  | cons a rest ih =>
    intro s
    unfold apply_assocs
    rcases h1 : apply_assoc api s rtid a with ⟨s1, e1⟩
    rcases h2 : apply_assocs api s1 rtid rest with ⟨s2, e2⟩
    have f1 := apply_assoc_frame api s rtid a
    rw [h1] at f1
    have f2 := ih s1
    rw [h2] at f2
    have g1 : s1.created = s.created := f1.1
    have g2 : s2.created = s1.created := f2.1
    have d1 : tagCreates e1 = [] := f1.2
    have d2 : tagCreates e2 = [] := f2.2
    simp [h1, h2, tagCreates_append, g1, g2, d1, d2]

theorem not_mem_tagCreates_nil {ev : List Event} (h : tagCreates ev = [])
    (pr : List String × List Tag) :
    ¬ ∃ a ∈ ev, (match a with
      | Event.api (ApiCall.createTags rs ts) _ => some ((rs, ts) : List String × List Tag)
      | _ => none) = some pr := by
  rintro ⟨a, ha, hma⟩
  rw [tagCreates_eq_nil_mem h a ha] at hma
  exact Option.noConfusion hma

/-- Behaviour of one `restore_route_tables` iteration: tag calls carry the
`aws:`-filtered captured tags, and the created table is either untouched
(creation or tagging failed) or extended exactly by
`original-table-id -> new-table-id` for the id minted by the create
call.  Route and association failures never prevent the mapping entry. -/
theorem restore_one_route_table_spec (api : Ec2Api) (s : St) (vpcid : String)
    (igwId : Option String) (rt : RtData) :
    (∀ pr ∈ tagCreates (restore_one_route_table api s vpcid igwId rt).2,
      pr.2 = awsTagSpecs (rt.tags.getD [])) ∧
    ((restore_one_route_table api s vpcid igwId rt).1.created = s.created ∨
     ∃ nid, (restore_one_route_table api s vpcid igwId rt).1.created =
        { s.created with
           route_tables := dictInsert s.created.route_tables rt.routeTableId nid } ∧
       Event.api (ApiCall.createRouteTable vpcid) (ApiResult.ok nid) ∈
         (restore_one_route_table api s vpcid igwId rt).2) := by
  unfold restore_one_route_table
  cases h1 : api s.counter (ApiCall.createRouteTable vpcid) with
  | err m =>
    refine ⟨?_, Or.inl ?_⟩
    · intro pr hpr
      simp [callApi, h1, tagCreates] at hpr
    · simp [callApi, h1]
  | ok nid =>
    by_cases htag : rt.tags = none ∨ awsTagSpecs (rt.tags.getD []) = []
    · have htagp : rt.tags = none ∨ awsTagSpecs (rt.tags.getD []) = [] := htag
      cases hroutes : rt.routes with
      | none =>
        cases hassocs : rt.associations with
        | none =>
          refine ⟨?_, Or.inr ⟨nid, ?_, ?_⟩⟩
          · intro pr hpr
            simp [callApi, h1, htagp, hroutes, hassocs, tagCreates_append, tagCreates] at hpr
            all_goals first
            | exact hpr.elim
            | (obtain rfl := hpr; rfl)
            | simp [hpr]
          · simp [callApi, h1, htagp, hroutes, hassocs]
          · simp [callApi, h1, htagp, hroutes, hassocs]
        | some al =>
          rcases ha : apply_assocs api { s with counter := s.counter + 1 } nid al with ⟨s4, e4⟩
          have fa := apply_assocs_frame api nid al { s with counter := s.counter + 1 }
          rw [ha] at fa
          have ga : s4.created = s.created := fa.1
          have da : tagCreates e4 = [] := fa.2
          refine ⟨?_, Or.inr ⟨nid, ?_, ?_⟩⟩
          · intro pr hpr
            simp [callApi, h1, htagp, hroutes, hassocs, ha, tagCreates_append, tagCreates, not_mem_tagCreates_nil da] at hpr
            all_goals first
            | exact hpr.elim
            | (obtain rfl := hpr; rfl)
            | simp [hpr]
          · simp [callApi, h1, htagp, hroutes, hassocs, ha, ga]
          · simp [callApi, h1, htagp, hroutes, hassocs, ha]
      | some rl =>
        rcases hr : apply_routes api { s with counter := s.counter + 1 } nid igwId rl with ⟨s3, e3⟩
        have fr := apply_routes_frame api nid igwId rl { s with counter := s.counter + 1 }
        rw [hr] at fr
        have gr : s3.created = s.created := fr.1
        have dr : tagCreates e3 = [] := fr.2
        cases hassocs : rt.associations with
        | none =>
          refine ⟨?_, Or.inr ⟨nid, ?_, ?_⟩⟩
          · intro pr hpr
            simp [callApi, h1, htagp, hroutes, hassocs, hr, tagCreates_append, tagCreates, not_mem_tagCreates_nil dr] at hpr
            all_goals first
            | exact hpr.elim
            | (obtain rfl := hpr; rfl)
            | simp [hpr]
          · simp [callApi, h1, htagp, hroutes, hassocs, hr, gr]
          · simp [callApi, h1, htagp, hroutes, hassocs, hr]
        | some al =>
          rcases ha : apply_assocs api s3 nid al with ⟨s4, e4⟩
          have fa := apply_assocs_frame api nid al s3
          rw [ha] at fa
          have ga : s4.created = s3.created := fa.1
          have da : tagCreates e4 = [] := fa.2
          refine ⟨?_, Or.inr ⟨nid, ?_, ?_⟩⟩
          · intro pr hpr
            simp [callApi, h1, htagp, hroutes, hassocs, hr, ha, tagCreates_append, tagCreates, not_mem_tagCreates_nil dr, not_mem_tagCreates_nil da] at hpr
            all_goals first
            | exact hpr.elim
            | (obtain rfl := hpr; rfl)
            | simp [hpr]
          · simp [callApi, h1, htagp, hroutes, hassocs, hr, ha, ga, gr]
          · simp [callApi, h1, htagp, hroutes, hassocs, hr, ha]
    · have htagn : ¬(rt.tags = none ∨ awsTagSpecs (rt.tags.getD []) = []) := htag
      cases h2 : api (s.counter + 1) (ApiCall.createTags [nid]
          (awsTagSpecs (rt.tags.getD []))) with
      | err m2 =>
        refine ⟨?_, Or.inl ?_⟩
        · intro pr hpr
          simp [callApi, h1, htagn, h2, tagCreates_append, tagCreates] at hpr
          all_goals first
          | exact hpr.elim
          | (obtain rfl := hpr; rfl)
          | simp [hpr]
        · simp [callApi, h1, htagn, h2]
      | ok i2 =>
        cases hroutes : rt.routes with
        | none =>
          cases hassocs : rt.associations with
          | none =>
            refine ⟨?_, Or.inr ⟨nid, ?_, ?_⟩⟩
            · intro pr hpr
              simp [callApi, h1, htagn, h2, hroutes, hassocs, tagCreates_append, tagCreates] at hpr
              all_goals first
              | exact hpr.elim
              | (obtain rfl := hpr; rfl)
              | simp [hpr]
            · simp [callApi, h1, htagn, h2, hroutes, hassocs]
            · simp [callApi, h1, htagn, h2, hroutes, hassocs]
          | some al =>
            rcases ha : apply_assocs api { s with counter := s.counter + 1 + 1 } nid al with ⟨s4, e4⟩
            have fa := apply_assocs_frame api nid al { s with counter := s.counter + 1 + 1 }
            rw [ha] at fa
            have ga : s4.created = s.created := fa.1
            have da : tagCreates e4 = [] := fa.2
            refine ⟨?_, Or.inr ⟨nid, ?_, ?_⟩⟩
            · intro pr hpr
              simp [callApi, h1, htagn, h2, hroutes, hassocs, ha, tagCreates_append, tagCreates, not_mem_tagCreates_nil da] at hpr
              all_goals first
              | exact hpr.elim
              | (obtain rfl := hpr; rfl)
              | simp [hpr]
            · simp [callApi, h1, htagn, h2, hroutes, hassocs, ha, ga]
            · simp [callApi, h1, htagn, h2, hroutes, hassocs, ha]
        | some rl =>
          rcases hr : apply_routes api { s with counter := s.counter + 1 + 1 } nid igwId rl with ⟨s3, e3⟩
          have fr := apply_routes_frame api nid igwId rl { s with counter := s.counter + 1 + 1 }
          rw [hr] at fr
          have gr : s3.created = s.created := fr.1
          have dr : tagCreates e3 = [] := fr.2
          cases hassocs : rt.associations with
          | none =>
            refine ⟨?_, Or.inr ⟨nid, ?_, ?_⟩⟩
            · intro pr hpr
              simp [callApi, h1, htagn, h2, hroutes, hassocs, hr, tagCreates_append, tagCreates, not_mem_tagCreates_nil dr] at hpr
              all_goals first
              | exact hpr.elim
              | (obtain rfl := hpr; rfl)
              | simp [hpr]
            · simp [callApi, h1, htagn, h2, hroutes, hassocs, hr, gr]
            · simp [callApi, h1, htagn, h2, hroutes, hassocs, hr]
          | some al =>
            rcases ha : apply_assocs api s3 nid al with ⟨s4, e4⟩
            have fa := apply_assocs_frame api nid al s3
            rw [ha] at fa
            have ga : s4.created = s3.created := fa.1
            have da : tagCreates e4 = [] := fa.2
            refine ⟨?_, Or.inr ⟨nid, ?_, ?_⟩⟩
            · intro pr hpr
              simp [callApi, h1, htagn, h2, hroutes, hassocs, hr, ha, tagCreates_append, tagCreates, not_mem_tagCreates_nil dr, not_mem_tagCreates_nil da] at hpr
              all_goals first
              | exact hpr.elim
              | (obtain rfl := hpr; rfl)
              | simp [hpr]
            · simp [callApi, h1, htagn, h2, hroutes, hassocs, hr, ha, ga, gr]
            · simp [callApi, h1, htagn, h2, hroutes, hassocs, hr, ha]

theorem restore_route_tables_spec (api : Ec2Api) (vpcid : String) (igwId : Option String) :
    ∀ (lst : List RtData) (s : St),
      (∀ pr ∈ tagCreates (restore_route_tables api s vpcid igwId lst).2,
        ∃ rt ∈ lst, pr.2 = awsTagSpecs (rt.tags.getD [])) ∧
      (∀ k nv, (k, nv) ∈ (restore_route_tables api s vpcid igwId lst).1.created.route_tables →
        (k, nv) ∈ s.created.route_tables ∨
        ∃ rt ∈ lst, rt.routeTableId = k ∧
          Event.api (ApiCall.createRouteTable vpcid) (ApiResult.ok nv) ∈
            (restore_route_tables api s vpcid igwId lst).2) ∧
      (∀ k, (dictLookup s.created.route_tables k).isSome = true →
        (dictLookup (restore_route_tables api s vpcid igwId lst).1.created.route_tables
          k).isSome = true) ∧
      (restore_route_tables api s vpcid igwId lst).1.created.subnets = s.created.subnets ∧
      (restore_route_tables api s vpcid igwId lst).1.created.security_groups =
        s.created.security_groups ∧
      (restore_route_tables api s vpcid igwId lst).1.created.internet_gateways =
        s.created.internet_gateways ∧
      (restore_route_tables api s vpcid igwId lst).1.created.vpc = s.created.vpc := by
  intro lst
  induction lst with
  | nil =>
    intro s
    refine ⟨?_, ?_, ?_, rfl, rfl, rfl, rfl⟩
    · intro pr hpr
      simp [restore_route_tables, tagCreates] at hpr
    · intro k nv h
      exact Or.inl h
    · intro k h
      exact h
  | cons rt rest ih =>
    intro s
    rcases h1 : restore_one_route_table api s vpcid igwId rt with ⟨s1, e1⟩
    rcases h2 : restore_route_tables api s1 vpcid igwId rest with ⟨s2, e2⟩
    have hspec := restore_one_route_table_spec api s vpcid igwId rt
    rw [h1] at hspec
    obtain ⟨htags1, hshape⟩ := hspec
    have f2 := ih s1
    rw [h2] at f2
    obtain ⟨t2, p2, m2, r2a, r2b, r2c, r2d⟩ := f2
    have hrt1 : s1.created.route_tables = s.created.route_tables ∨
        ∃ nid, s1.created.route_tables =
          dictInsert s.created.route_tables rt.routeTableId nid := by
      rcases hshape with hsame | ⟨nid, hins, _⟩
      · exact Or.inl (by rw [hsame])
      · exact Or.inr ⟨nid, by rw [hins]⟩
    have hflds : s1.created.subnets = s.created.subnets ∧
        s1.created.security_groups = s.created.security_groups ∧
        s1.created.internet_gateways = s.created.internet_gateways ∧
        s1.created.vpc = s.created.vpc := by
      rcases hshape with hsame | ⟨nid, hins, _⟩
      · rw [hsame]
        exact ⟨rfl, rfl, rfl, rfl⟩
      · rw [hins]
        exact ⟨rfl, rfl, rfl, rfl⟩
    simp only [restore_route_tables, h1, h2]
    refine ⟨?_, ?_, ?_, ?_, ?_, ?_, ?_⟩
    · intro pr hpr
      rcases List.mem_append.mp (by simpa [tagCreates_append] using hpr) with hin | hin
      · exact ⟨rt, List.mem_cons_self _ _, htags1 pr hin⟩
      · obtain ⟨rt2, hrt2, hts⟩ := t2 pr hin
        exact ⟨rt2, List.mem_cons_of_mem _ hrt2, hts⟩
    · intro k nv hm
      rcases p2 k nv hm with hin1 | ⟨rt2, hrt2, hk, hev⟩
      · rcases hshape with hsame | ⟨nid, hins, hev1⟩
        · rw [hsame] at hin1
          exact Or.inl hin1
        · have hl1 : s1.created.route_tables =
              dictInsert s.created.route_tables rt.routeTableId nid := by
            rw [hins]
          rw [hl1] at hin1
          rcases mem_of_mem_dictInsert _ _ _ _ hin1 with hold | hnew
          · exact Or.inl hold
          · rw [Prod.mk.injEq] at hnew
            refine Or.inr ⟨rt, List.mem_cons_self _ _, hnew.1.symm, ?_⟩
            rw [hnew.2]
            exact List.mem_append_left _ hev1
      · exact Or.inr ⟨rt2, List.mem_cons_of_mem _ hrt2, hk, List.mem_append_right _ hev⟩
    · intro k hk
      apply m2
      rcases hrt1 with hs1 | ⟨nid, hs1⟩
      · rw [hs1]
        exact hk
      · rw [hs1]
        exact dictLookup_isSome_insert _ _ _ _ hk
    · have g2 : s2.created.subnets = s1.created.subnets := r2a
      exact g2.trans hflds.1
    · have g2 : s2.created.security_groups = s1.created.security_groups := r2b
      exact g2.trans hflds.2.1
    · have g2 : s2.created.internet_gateways = s1.created.internet_gateways := r2c
      exact g2.trans hflds.2.2.1
    · have g2 : s2.created.vpc = s1.created.vpc := r2d
      exact g2.trans hflds.2.2.2

/-! ## Helpers for the whole-VPC composition -/

theorem tagCreates_nil : tagCreates [] = [] := rfl

theorem tagCreates_log_cons (lv m : String) (ev : List Event) :
    tagCreates (Event.log lv m :: ev) = tagCreates ev := rfl

theorem tagCreates_map_log {α : Type} (lv : String) (f : α → String) (l : List α) :
    tagCreates (l.map fun x => Event.log lv (f x)) = [] := by
  induction l with
  | nil => rfl
  | cons x xs ih =>
    rw [List.map_cons, tagCreates_log_cons]
    exact ih

theorem dictLookup_dictInsert_self {κ α : Type} [DecidableEq κ]
    (m : List (κ × α)) (k : κ) (v : α) :
    dictLookup (dictInsert m k v) k = some v := by
  induction m with
  | nil => simp [dictInsert, dictLookup]
  | cons kv rest ih =>
    cases kv with
    | mk k0 v0 =>
      by_cases h : k0 = k
      · simp [dictInsert, dictLookup, h]
      · simp [dictInsert, dictLookup, h, ih]

theorem restore_igw_other_fields (api : Ec2Api) (s : St) (opt : Option IgwData)
    (vpcid : String) :
    (restore_internet_gateway api s opt vpcid).2.1.created.subnets = s.created.subnets ∧
    (restore_internet_gateway api s opt vpcid).2.1.created.route_tables =
      s.created.route_tables ∧
    (restore_internet_gateway api s opt vpcid).2.1.created.security_groups =
      s.created.security_groups ∧
    (restore_internet_gateway api s opt vpcid).2.1.created.vpc = s.created.vpc := by
  cases opt with
  | none => exact ⟨rfl, rfl, rfl, rfl⟩
  | some igw =>
    have hspec := restore_internet_gateway_spec api s igw vpcid
    cases hres : (restore_internet_gateway api s (some igw) vpcid).1 with
    | none =>
      have h := hspec.2.1 hres
      rw [h]
      exact ⟨rfl, rfl, rfl, rfl⟩
    | some id =>
      have h := (hspec.2.2 id hres).1
      rw [h]
      exact ⟨rfl, rfl, rfl, rfl⟩

theorem restore_igw_tags_opt (api : Ec2Api) (s : St) (opt : Option IgwData)
    (vpcid : String) :
    ∀ pr ∈ tagCreates (restore_internet_gateway api s opt vpcid).2.2,
      ∃ igw, opt = some igw ∧ pr.2 = awsTagSpecs (igw.tags.getD []) := by
  cases opt with
  | none =>
    intro pr hpr
    simp [restore_internet_gateway, tagCreates] at hpr
  | some igw =>
    intro pr hpr
    exact ⟨igw, rfl, (restore_internet_gateway_spec api s igw vpcid).1 pr hpr⟩

theorem restore_security_groups_provenance (api : Ec2Api) (s : St) (v : String)
    (sgs : List SgData) :
    ∀ k nv, (k, nv) ∈ (restore_security_groups api s v sgs).1.created.security_groups →
      (k, nv) ∈ s.created.security_groups ∨
      ∃ sg ∈ sgs, sg.groupId = k ∧ sg.groupName ≠ some "default" := by
  intro k nv hm
  unfold restore_security_groups at hm
  rcases h1 : sg_pass1 api s v sgs with ⟨s1, e1⟩
  rcases h2 : sg_pass2 api s1 sgs with ⟨s2, e2⟩
  simp only [h1, h2] at hm
  have f2 := sg_pass2_frame api sgs s1
  rw [h2] at f2
  have g2 : s2.created = s1.created := f2.1
  rw [g2] at hm
  have f1 := (sg_pass1_spec api v sgs s).2
  rw [h1] at f1
  exact f1 k nv hm

/-- C3 (amended): the restore stages do not share one tag filter.  The
network's own tags are filtered only by "key is not the CloudFormation
stack name", so every other platform-reserved (`aws:`-prefixed) key IS
replayed on the network; gateways, subnets, route tables and security
groups filter out every `aws:`-prefixed key.  Every create-tags call of a
whole-network restore carries one of those two filtered lists. -/
theorem restore_tag_filtering (api : Ec2Api) (s : St) (vid : String) (vd : VpcData) :
    (∀ tags t, t ∈ vpcTagSpecs tags ↔
      t ∈ tags ∧ t.key ≠ "aws:cloudformation:stack-name") ∧
    (∀ tags t, t ∈ awsTagSpecs tags ↔
      t ∈ tags ∧ t.key.startsWith "aws:" = false) ∧
    (∀ pr ∈ tagCreates (restoreOneVpc api s vid vd).2,
      pr.2 = vpcTagSpecs (vd.tags.getD []) ∨
      (∃ igw, vd.internet_gateways.head? = some igw ∧
        pr.2 = awsTagSpecs (igw.tags.getD [])) ∨
      (∃ sd ∈ vd.subnets, pr.2 = awsTagSpecs (sd.tags.getD [])) ∨
      (∃ rt ∈ vd.route_tables, pr.2 = awsTagSpecs (rt.tags.getD [])) ∨
      (∃ sg ∈ vd.security_groups, pr.2 = awsTagSpecs (sg.tags.getD []))) := by
  refine ⟨?_, ?_, ?_⟩
  · intro tags t
    simp [vpcTagSpecs]
  · intro tags t
    simp [awsTagSpecs]
  · intro pr hpr
    rcases hv : restore_vpc api s vd with ⟨res, s1, ev1⟩
    unfold restoreOneVpc at hpr
    rw [hv] at hpr
    cases res with
    | none =>
      simp only [tagCreates_append, tagCreates_log_cons, tagCreates_nil,
        List.mem_append, List.not_mem_nil, or_false, false_or] at hpr
      have h1 := (restore_vpc_spec api s vd).1
      rw [hv] at h1
      exact Or.inl (h1 pr hpr)
    | some newVpcId =>
      rcases h2 : (if vd.internet_gateways.isEmpty then
          ((none : Option String), s1, ([] : List Event))
        else restore_internet_gateway api s1 vd.internet_gateways.head? newVpcId) with
        ⟨igwOpt, s2, ev2⟩
      rcases h3 : restore_subnets api s2 newVpcId vd.subnets with ⟨s3, ev4⟩
      rcases h4 : restore_route_tables api s3 newVpcId igwOpt vd.route_tables with ⟨s4, ev6⟩
      rcases h5 : restore_security_groups api s4 newVpcId vd.security_groups with ⟨s5, ev8⟩
      simp only [h2, h3, h4, h5] at hpr
      simp only [tagCreates_append, tagCreates_log_cons, tagCreates_nil, tagCreates_map_log,
        List.append_nil, List.nil_append, List.mem_append, List.not_mem_nil, or_false,
        false_or] at hpr
      rcases hpr with (((h | h) | h) | h) | h
      · have h1 := (restore_vpc_spec api s vd).1
        rw [hv] at h1
        exact Or.inl (h1 pr h)
      · by_cases hig : vd.internet_gateways.isEmpty = true
        · rw [if_pos hig] at h2
          simp only [Prod.mk.injEq] at h2
          rw [← h2.2.2] at h
          simp [tagCreates] at h
        · rw [if_neg hig] at h2
          have ht := restore_igw_tags_opt api s1 vd.internet_gateways.head? newVpcId
          rw [h2] at ht
          obtain ⟨igw, hopt, hts⟩ := ht pr h
          exact Or.inr (Or.inl ⟨igw, hopt, hts⟩)
      · have hs := (restore_subnets_spec api newVpcId vd.subnets s2).1
        rw [h3] at hs
        obtain ⟨sd, hsd, hts⟩ := hs pr h
        exact Or.inr (Or.inr (Or.inl ⟨sd, hsd, hts⟩))
      · have hr := (restore_route_tables_spec api newVpcId igwOpt vd.route_tables s3).1
        rw [h4] at hr
        obtain ⟨rt, hrt, hts⟩ := hr pr h
        exact Or.inr (Or.inr (Or.inr (Or.inl ⟨rt, hrt, hts⟩)))
      · have hg := restore_security_groups_tags api s4 newVpcId vd.security_groups
        rw [h5] at hg
        obtain ⟨sg, hsg, hts⟩ := hg pr h
        exact Or.inr (Or.inr (Or.inr (Or.inr ⟨sg, hsg, hts⟩)))

/-- Counterexample to C3 as stated: restoring `vpcAwsTagged`, a network
captured with the platform-reserved key `aws:backup-plan-id`, replays
that key in the network's create-tags call (only the CloudFormation
stack-name key is excluded for the network itself). -/
theorem restore_vpc_replays_reserved_key :
    ∃ pr ∈ tagCreates (restore_vpc happyApi st0 vpcAwsTagged).2.2,
      ∃ t ∈ pr.2, t.key = "aws:backup-plan-id" := by
  decide

/-- C2 (amended): after a successful network creation the DNS-hostnames
attribute equals the captured flag (default disabled), but the
DNS-support attribute is always left enabled whatever the captured flag
said: the captured flag only decides whether an (always-enabling) modify
call is issued, and no modify call ever disables an attribute. -/
theorem restore_vpc_dns_attrs (api : Ec2Api) (s : St) (v : VpcData) (id : String)
    (h : (restore_vpc api s v).1 = some id) :
    finalDnsSupport (restore_vpc api s v).2.2 id = true ∧
    finalDnsHostnames (restore_vpc api s v).2.2 id = v.enableDnsHostnames.getD false ∧
    (∀ vid b r, Event.api (ApiCall.modifyVpcAttrDnsSupport vid b) r ∈
      (restore_vpc api s v).2.2 → b = true) := by
  have hs := restore_vpc_spec api s v
  exact ⟨(hs.2.2.2.2 id h).2.1, (hs.2.2.2.2 id h).2.2.1, hs.2.1⟩

/-- Witness for C2's amended statement at `vpcDnsOff`. -/
theorem restore_vpc_dns_attrs_witness :
    (restore_vpc happyApi st0 vpcDnsOff).1 = some "id-0" ∧
    (finalDnsSupport (restore_vpc happyApi st0 vpcDnsOff).2.2 "id-0" = true ∧
     finalDnsHostnames (restore_vpc happyApi st0 vpcDnsOff).2.2 "id-0" =
       vpcDnsOff.enableDnsHostnames.getD false ∧
     (∀ vid b r, Event.api (ApiCall.modifyVpcAttrDnsSupport vid b) r ∈
       (restore_vpc happyApi st0 vpcDnsOff).2.2 → b = true)) :=
  ⟨by decide, restore_vpc_dns_attrs happyApi st0 vpcDnsOff "id-0" (by decide)⟩

/-- Counterexample to C2 as stated: `vpcDnsOff` is captured with
DNS-support explicitly disabled, restores successfully, and ends with
DNS-support enabled. -/
theorem dns_support_disabled_not_restored :
    vpcDnsOff.enableDnsSupport = some false ∧
    (restore_vpc happyApi st0 vpcDnsOff).1 = some "id-0" ∧
    finalDnsSupport (restore_vpc happyApi st0 vpcDnsOff).2.2 "id-0" = true := by
  decide

/-- C5 (amended): subnet, route-table and security-group entries are
recorded original-id → new-id, but a successfully restored internet
gateway is recorded the other way round: the mapping's key is the NEW
gateway id and its value is the captured gateway record (which carries
the original id inside), so no original-gateway-id → new-id entry exists. -/
theorem created_mapping_directions (api : Ec2Api) (s : St) (igw : IgwData)
    (vpcid : String) (newId : String)
    (h : (restore_internet_gateway api s (some igw) vpcid).1 = some newId) :
    dictLookup
      (restore_internet_gateway api s (some igw) vpcid).2.1.created.internet_gateways
      newId = some igw ∧
    (∀ lst k nv, (k, nv) ∈ (restore_subnets api s vpcid lst).1.created.subnets →
      (k, nv) ∈ s.created.subnets ∨ ∃ sd ∈ lst, sd.subnetId = k) ∧
    (∀ lst igwId k nv,
      (k, nv) ∈ (restore_route_tables api s vpcid igwId lst).1.created.route_tables →
      (k, nv) ∈ s.created.route_tables ∨ ∃ rt ∈ lst, rt.routeTableId = k) ∧
    (∀ lst k nv,
      (k, nv) ∈ (restore_security_groups api s vpcid lst).1.created.security_groups →
      (k, nv) ∈ s.created.security_groups ∨ ∃ sg ∈ lst, sg.groupId = k) := by
  refine ⟨?_, ?_, ?_, ?_⟩
  · have hspec := ((restore_internet_gateway_spec api s igw vpcid).2.2 newId h).1
    rw [hspec]
    exact dictLookup_dictInsert_self _ _ _
  · intro lst k nv hm
    rcases (restore_subnets_spec api vpcid lst s).2.1 k nv hm with hin | ⟨sd, hsd, hk, _⟩
    · exact Or.inl hin
    · exact Or.inr ⟨sd, hsd, hk⟩
  · intro lst igwId k nv hm
    rcases (restore_route_tables_spec api vpcid igwId lst s).2.1 k nv hm with
      hin | ⟨rt, hrt, hk, _⟩
    · exact Or.inl hin
    · exact Or.inr ⟨rt, hrt, hk⟩
  · intro lst k nv hm
    rcases restore_security_groups_provenance api s vpcid lst k nv hm with
      hin | ⟨sg, hsg, hk, _⟩
    · exact Or.inl hin
    · exact Or.inr ⟨sg, hsg, hk⟩

/-- Witness for C5's amended statement: the gateway entry sits under the
new id `id-0` with the captured record as value. -/
theorem created_mapping_directions_witness :
    (restore_internet_gateway happyApi st0 (some igwCaptured) "vpc-new").1 = some "id-0" ∧
    dictLookup (restore_internet_gateway happyApi st0 (some igwCaptured)
      "vpc-new").2.1.created.internet_gateways "id-0" = some igwCaptured :=
  ⟨by decide, (created_mapping_directions happyApi st0 igwCaptured "vpc-new" "id-0"
    (by decide)).1⟩

/-- Counterexample to C5 as stated: after successfully restoring the
captured gateway (original id `igw-old`, new id `id-0`), the gateway
mapping is `[(id-0, igwCaptured)]` — keyed by the NEW id, with the
captured record (not the new id) as value — and the original id is not a
key at all. -/
theorem igw_mapping_keyed_by_new_id :
    (restore_internet_gateway happyApi st0 (some igwCaptured)
        "vpc-new").2.1.created.internet_gateways = [("id-0", igwCaptured)] ∧
    dictLookup (restore_internet_gateway happyApi st0 (some igwCaptured)
      "vpc-new").2.1.created.internet_gateways "igw-old" = none := by
  decide

/-- C1 (amended): `created_resources` is initialized empty once per run
(in `__init__`) and is NOT reset between networks: every subnet,
route-table and security-group entry readable before a network's restore
is still readable after it, so entries recorded while restoring an
earlier network remain visible (to cross-reference resolution and to the
mapping report) while restoring a later network of the same run. -/
theorem created_resources_not_reset (api : Ec2Api) (s : St) (vid : String)
    (vd : VpcData) :
    initialCreated.subnets = [] ∧ initialCreated.route_tables = [] ∧
    initialCreated.security_groups = [] ∧ initialCreated.internet_gateways = [] ∧
    ((∀ k, (dictLookup s.created.subnets k).isSome = true →
      (dictLookup (restoreOneVpc api s vid vd).1.created.subnets k).isSome = true) ∧
    (∀ k, (dictLookup s.created.route_tables k).isSome = true →
      (dictLookup (restoreOneVpc api s vid vd).1.created.route_tables k).isSome = true) ∧
    (∀ k, (dictLookup s.created.security_groups k).isSome = true →
      (dictLookup (restoreOneVpc api s vid vd).1.created.security_groups k).isSome
        = true)) := by
  refine ⟨rfl, rfl, rfl, rfl, ?_⟩
  rcases hv : restore_vpc api s vd with ⟨res, s1, ev1⟩
  have hvspec := restore_vpc_spec api s vd
  rw [hv] at hvspec
  cases res with
  | none =>
    have h1 : s1.created = s.created := hvspec.2.2.2.1 rfl
    simp only [restoreOneVpc, hv]
    rw [h1]
    exact ⟨fun k hk => hk, fun k hk => hk, fun k hk => hk⟩
  | some newVpcId =>
    have h1 := (hvspec.2.2.2.2 newVpcId rfl).1
    rcases h2 : (if vd.internet_gateways.isEmpty then
        ((none : Option String), s1, ([] : List Event))
      else restore_internet_gateway api s1 vd.internet_gateways.head? newVpcId) with
      ⟨igwOpt, s2, ev2⟩
    rcases h3 : restore_subnets api s2 newVpcId vd.subnets with ⟨s3, ev4⟩
    rcases h4 : restore_route_tables api s3 newVpcId igwOpt vd.route_tables with ⟨s4, ev6⟩
    rcases h5 : restore_security_groups api s4 newVpcId vd.security_groups with ⟨s5, ev8⟩
    simp only [restoreOneVpc, hv, h2, h3, h4, h5]
    have hf2 : s2.created.subnets = s1.created.subnets ∧
        s2.created.route_tables = s1.created.route_tables ∧
        s2.created.security_groups = s1.created.security_groups := by
      by_cases hig : vd.internet_gateways.isEmpty = true
      · rw [if_pos hig] at h2
        simp only [Prod.mk.injEq] at h2
        rw [← h2.2.1]
        exact ⟨rfl, rfl, rfl⟩
      · rw [if_neg hig] at h2
        have hf := restore_igw_other_fields api s1 vd.internet_gateways.head? newVpcId
        rw [h2] at hf
        exact ⟨hf.1, hf.2.1, hf.2.2.1⟩
    have hs3 := restore_subnets_spec api newVpcId vd.subnets s2
    rw [h3] at hs3
    have hs4 := restore_route_tables_spec api newVpcId igwOpt vd.route_tables s3
    rw [h4] at hs4
    have hs5 := restore_security_groups_mono api s4 newVpcId vd.security_groups
    rw [h5] at hs5
    refine ⟨?_, ?_, ?_⟩
    · intro k hk
      have k1 : (dictLookup s1.created.subnets k).isSome = true := by
        rw [h1]
        exact hk
      have k2 : (dictLookup s2.created.subnets k).isSome = true := by
        rw [hf2.1]
        exact k1
      have k3 : (dictLookup s3.created.subnets k).isSome = true := hs3.2.2.1 k k2
      have k4 : (dictLookup s4.created.subnets k).isSome = true := by
        rw [hs4.2.2.2.1]
        exact k3
      rw [hs5.2.1]
      exact k4
    · intro k hk
      have k1 : (dictLookup s1.created.route_tables k).isSome = true := by
        rw [h1]
        exact hk
      have k2 : (dictLookup s2.created.route_tables k).isSome = true := by
        rw [hf2.2.1]
        exact k1
      have k3 : (dictLookup s3.created.route_tables k).isSome = true := by
        rw [hs3.2.2.2.1]
        exact k2
      have k4 : (dictLookup s4.created.route_tables k).isSome = true := hs4.2.2.1 k k3
      rw [hs5.2.2.1]
      exact k4
    · intro k hk
      have k1 : (dictLookup s1.created.security_groups k).isSome = true := by
        rw [h1]
        exact hk
      have k2 : (dictLookup s2.created.security_groups k).isSome = true := by
        rw [hf2.2.2]
        exact k1
      have k3 : (dictLookup s3.created.security_groups k).isSome = true := by
        rw [hs3.2.2.2.2.1]
        exact k2
      have k4 : (dictLookup s4.created.security_groups k).isSome = true := by
        rw [hs4.2.2.2.2.1]
        exact k3
      exact hs5.1 k k4

/-- Counterexample to C1 as stated: in the two-network run over
`backupTwoVpcs`, the subnet entry recorded while restoring the first
network (`subnet-A` → `id-3`) is read while restoring the second one —
the second network's route-table association resolves `subnet-A` to
`id-3` and issues an associate call with it, and the second network's
mapping report reprints the first network's subnet entry. -/
theorem created_resources_leak_across_vpcs :
    Event.api (ApiCall.associateRouteTable "id-7" "id-3") (ApiResult.ok "id-8") ∈
      (cmd_restore happyApi (s3Of backupTwoVpcs) cfgSnap).2.2 ∧
    ((cmd_restore happyApi (s3Of backupTwoVpcs) cfgSnap).2.2.count
      (Event.log "info" "  Subnet: subnet-A -> id-3")) = 2 := by
  decide

/-- C4 (amended): the exit code never depends on per-network restore
outcomes.  For EVERY provisioning-API behaviour, the command exits 1
exactly when the backup fails to load, is empty, or the requested
network id is absent from it; once the restore loop is entered it exits
0, even if every network in the snapshot failed to restore (such
failures are only logged and skipped). -/
theorem cmd_restore_exit_code (api : Ec2Api) (s3 : S3Api) (cfg : RestoreConfig) :
    (cmd_restore api s3 cfg).1 =
      match load_backup_data s3 cfg with
      | none => 1
      | some bd =>
        if bd.vpcs = [] then 1
        else if optTruthy cfg.target_vpc_id &&
            (dictLookup bd.vpcs (cfg.target_vpc_id.getD "")).isNone then 1
        else 0 := by
  unfold cmd_restore restore_vpc_from_backup
  cases hld : load_backup_data s3 cfg with
  | none => simp
  | some bd =>
    by_cases hemp : bd.vpcs = []
    · simp [hemp]
    · by_cases htgt : (optTruthy cfg.target_vpc_id &&
          (dictLookup bd.vpcs (cfg.target_vpc_id.getD "")).isNone) = true
      · simp [hemp, htgt]
      · rcases hloop : restoreVpcLoop api bd.vpcs { counter := 0, created := initialCreated }
            (if optTruthy cfg.target_vpc_id then [cfg.target_vpc_id.getD ""]
             else bd.vpcs.map fun kv => kv.1) with ⟨s1, ev⟩
        simp [hemp, htgt, hloop]

/-- Counterexample to C4 as stated: the only network of `backupNoCidr`
fails to restore (its creation stage aborts for lack of a CIDR block)
and the failure is logged, yet the command exits 0. -/
theorem exit_zero_despite_failed_vpc :
    (Event.log "error" "Failed to restore VPC vpc-nc") ∈
      (cmd_restore happyApi (s3Of backupNoCidr) cfgSnap).2.2 ∧
    (cmd_restore happyApi (s3Of backupNoCidr) cfgSnap).1 = 0 := by
  decide

end VpcChron
